import Mathlib

/-!
Shallow embedding of the pyC3D C3D-file decoder (modules `consts`,
`binaryFileReader`, `_internals`, `c3dFile`), together with theorems
checking the natural-language specification against the code.

Conventions:
* Python `bytes` are `List Nat` with entries in `[0, 256)`.
* Python `str` values are lists of Unicode code points (`List Nat`).
* Python `float` is modelled as `PyFloat`: an exact rational for finite
  values plus explicit infinities and NaN.  Arithmetic on finite values is
  exact rational arithmetic (an idealisation of IEEE double rounding; every
  concrete computation in this file is exact in both models).
* Python exceptions are modelled with `Except PyErr`; the mutable
  `C3DFile` object is modelled by explicit state passing, where a raised
  exception carries the state at the raise point (Python objects keep
  their fields when an exception propagates).
-/

namespace PyC3D

set_option maxRecDepth 100000

/-- Errors raised by the Python code or by the libraries it calls. -/
inductive PyErr : Type
  /-- `struct.error`: wrong byte count or bad format for `struct.unpack`. -/
  | structError : PyErr
  /-- `UnicodeDecodeError` from `bytes.decode()`. -/
  | unicodeError : PyErr
  /-- `ValueError` raised by the pyC3D code itself. -/
  | valueError : PyErr
  /-- `TypeError` from an unsupported Python operation. -/
  | typeError : PyErr
  /-- `OSError` from seeking to a negative offset. -/
  | osError : PyErr
  /-- `AttributeError` from calling a method on `None`. -/
  | attributeError : PyErr
  /-- Out of fuel in the model of an unbounded Python loop. -/
  | fuelExhausted : PyErr
  deriving DecidableEq, Repr

instance {ε α : Type} [DecidableEq ε] [DecidableEq α] :
    DecidableEq (Except ε α) := fun a b =>
  match a, b with
  | .ok x, .ok y =>
    if h : x = y then .isTrue (by rw [h])
    else .isFalse (fun hc => h (Except.ok.inj hc))
  | .error e, .error f =>
    if h : e = f then .isTrue (by rw [h])
    else .isFalse (fun hc => h (Except.error.inj hc))
  | .ok _, .error _ => .isFalse (fun hc => Except.noConfusion hc)
  | .error _, .ok _ => .isFalse (fun hc => Except.noConfusion hc)

/-- `consts.ProcessorTypes`: the three recognised processor tags. -/
inductive ProcessorType : Type
  | INTEL : ProcessorType
  | DEC : ProcessorType
  | MIPS : ProcessorType
  deriving DecidableEq, Repr

/-- `consts.DataTypes`: the three multi-byte scalar kinds, with their
struct format characters h/l/f and sizes 2/4/4. -/
inductive DataType : Type
  | INT : DataType
  | LONG : DataType
  | FLOAT : DataType
  deriving DecidableEq, Repr

/-- `consts.DataTypes._DataType.size`. -/
def DataType.size : DataType → Nat
  | .INT => 2
  | .LONG => 4
  | .FLOAT => 4

/-- Little-endian accumulation of a byte list into a natural number. -/
def leNat (bs : List Nat) : Nat :=
  bs.foldr (fun b acc => b + 256 * acc) 0

/-- Big-endian accumulation of a byte list into a natural number. -/
def beNat (bs : List Nat) : Nat :=
  leNat bs.reverse

/-- Two's-complement reinterpretation of a `w`-bit unsigned value. -/
def toSigned (w : Nat) (n : Nat) : Int :=
  if n < 2 ^ (w - 1) then (n : Int) else (n : Int) - 2 ^ w

/-- A Python float: exact finite value, signed infinity, or NaN. -/
inductive PyFloat : Type
  | fin (q : ℚ) : PyFloat
  | inf (neg : Bool) : PyFloat
  | nan : PyFloat
  deriving DecidableEq, Repr

/-- Integer power of two as a rational, for IEEE-754 exponents. -/
def pow2 (e : ℤ) : ℚ :=
  if 0 ≤ e then ((2 ^ e.toNat : ℕ) : ℚ) else 1 / ((2 ^ (-e).toNat : ℕ) : ℚ)

/-- Decode a 32-bit pattern as an IEEE-754 binary32 value
(`struct.unpack` format character f). -/
def f32FromBits (n : Nat) : PyFloat :=
  let sign : Nat := n / 2 ^ 31 % 2
  let exp : Nat := n / 2 ^ 23 % 2 ^ 8
  let frac : Nat := n % 2 ^ 23
  if exp = 255 then
    if frac = 0 then .inf (sign = 1) else .nan
  else
    let mag : ℚ :=
      if exp = 0 then (frac : ℚ) * pow2 (-149)
      else ((2 ^ 23 + frac : ℕ) : ℚ) * pow2 ((exp : ℤ) - 150)
    .fin (if sign = 1 then -mag else mag)

/-- Python `x == 0` on a float (`-0.0 == 0` holds; NaN and infinities
compare unequal to zero). -/
def PyFloat.eqZero : PyFloat → Bool
  | .fin q => q = 0
  | .inf _ => false
  | .nan => false

/-- Python `x < 0` on a float (NaN comparisons are false). -/
def PyFloat.isNeg : PyFloat → Bool
  | .fin q => q < 0
  | .inf neg => neg
  | .nan => false

/-- Python `n * x` for an integer and a float (exact on finite values). -/
def PyFloat.mulInt (n : Int) : PyFloat → PyFloat
  | .fin q => .fin ((n : ℚ) * q)
  | .inf neg => if n = 0 then .nan else .inf (xor neg (n < 0))
  | .nan => .nan

/-- A Python value as stored in parameters and sample buffers. -/
inductive PyVal : Type
  | i (n : Int) : PyVal
  | f (x : PyFloat) : PyVal
  | s (cs : List Nat) : PyVal
  | lst (vs : List PyVal) : PyVal
  | none : PyVal
  deriving Repr

mutual

/-- Boolean equality on Python values (needed because the nested
inductive cannot derive decidable equality automatically). -/
def PyVal.beq : PyVal → PyVal → Bool
  | .i a, .i b => decide (a = b)
  | .f a, .f b => decide (a = b)
  | .s a, .s b => decide (a = b)
  | .lst as, .lst bs => PyVal.beqList as bs
  | .none, .none => true
  | _, _ => false

/-- Boolean equality on lists of Python values. -/
def PyVal.beqList : List PyVal → List PyVal → Bool
  | [], [] => true
  | a :: as, b :: bs => PyVal.beq a b && PyVal.beqList as bs
  | _, _ => false

end

mutual

def PyVal.beq_iff : ∀ a b : PyVal, PyVal.beq a b = true ↔ a = b
  | .i a, .i b => by simp [PyVal.beq]
  | .f a, .f b => by simp [PyVal.beq]
  | .s a, .s b => by simp [PyVal.beq]
  | .lst as, .lst bs => by
      simp only [PyVal.beq, PyVal.beqList_iff as bs, PyVal.lst.injEq]
  | .none, .none => by simp [PyVal.beq]
  | .i _, .f _ => by simp [PyVal.beq]
  | .i _, .s _ => by simp [PyVal.beq]
  | .i _, .lst _ => by simp [PyVal.beq]
  | .i _, .none => by simp [PyVal.beq]
  | .f _, .i _ => by simp [PyVal.beq]
  | .f _, .s _ => by simp [PyVal.beq]
  | .f _, .lst _ => by simp [PyVal.beq]
  | .f _, .none => by simp [PyVal.beq]
  | .s _, .i _ => by simp [PyVal.beq]
  | .s _, .f _ => by simp [PyVal.beq]
  | .s _, .lst _ => by simp [PyVal.beq]
  | .s _, .none => by simp [PyVal.beq]
  | .lst _, .i _ => by simp [PyVal.beq]
  | .lst _, .f _ => by simp [PyVal.beq]
  | .lst _, .s _ => by simp [PyVal.beq]
  | .lst _, .none => by simp [PyVal.beq]
  | .none, .i _ => by simp [PyVal.beq]
  | .none, .f _ => by simp [PyVal.beq]
  | .none, .s _ => by simp [PyVal.beq]
  | .none, .lst _ => by simp [PyVal.beq]

def PyVal.beqList_iff : ∀ as bs : List PyVal,
    PyVal.beqList as bs = true ↔ as = bs
  | [], [] => by simp [PyVal.beqList]
  | a :: as, b :: bs => by
      simp only [PyVal.beqList, Bool.and_eq_true, PyVal.beq_iff a b,
        PyVal.beqList_iff as bs, List.cons.injEq]
  | [], _ :: _ => by simp [PyVal.beqList]
  | _ :: _, [] => by simp [PyVal.beqList]

end

instance : DecidableEq PyVal := fun a b =>
  decidable_of_iff _ (PyVal.beq_iff a b)

/-- Result of `struct.unpack` with a little-endian format on a byte field:
`struct.error` unless the byte count matches the format size. -/
def unpackLE (t : DataType) (bs : List Nat) : Except PyErr PyVal :=
  if bs.length = t.size then
    match t with
    | .INT => .ok (.i (toSigned 16 (leNat bs)))
    | .LONG => .ok (.i (toSigned 32 (leNat bs)))
    | .FLOAT => .ok (.f (f32FromBits (leNat bs)))
  else .error .structError

/-- Result of `struct.unpack` with a big-endian format on a byte field. -/
def unpackBE (t : DataType) (bs : List Nat) : Except PyErr PyVal :=
  if bs.length = t.size then
    match t with
    | .INT => .ok (.i (toSigned 16 (beNat bs)))
    | .LONG => .ok (.i (toSigned 32 (beNat bs)))
    | .FLOAT => .ok (.f (f32FromBits (beNat bs)))
  else .error .structError

/-- `BinaryFileReader._readBasedOnProcessorType`: Intel or unset unpacks
little-endian; DEC unpacks the reversed bytes big-endian; MIPS rotates the
bytes left by one and unpacks little-endian.  (The `functools.cache`
memoisation wraps a pure function and is semantically transparent.) -/
def readBasedOnProcessorType (data : List Nat) (dataType : DataType)
    (processorType : Option ProcessorType) : Except PyErr PyVal :=
  match processorType with
  | some .INTEL => unpackLE dataType data
  | Option.none => unpackLE dataType data
  | some .DEC => unpackBE dataType data.reverse
  | some .MIPS => unpackLE dataType (data.drop 1 ++ data.take 1)

/-- Is `b` a UTF-8 continuation byte (0x80..0xBF)? -/
def utf8Cont (b : Nat) : Bool := 128 ≤ b && b < 192

/-- Strict UTF-8 decoding of a byte list into code points, the behaviour
of CPython `bytes.decode()`: rejects stray continuation bytes, overlong
encodings, surrogate code points and values above 0x10FFFF. -/
def utf8Decode : List Nat → Except PyErr (List Nat)
  | [] => .ok []
  | b :: rest =>
    if b < 128 then
      match utf8Decode rest with
      | .ok cps => .ok (b :: cps)
      | .error e => .error e
    else if b < 194 then .error .unicodeError
    else if b < 224 then
      match rest with
      | c1 :: rest2 =>
        if utf8Cont c1 then
          match utf8Decode rest2 with
          | .ok cps => .ok (((b - 192) * 64 + (c1 - 128)) :: cps)
          | .error e => .error e
        else .error .unicodeError
      | [] => .error .unicodeError
    else if b < 240 then
      match rest with
      | c1 :: c2 :: rest2 =>
        if utf8Cont c1 && utf8Cont c2 then
          let cp := (b - 224) * 4096 + (c1 - 128) * 64 + (c2 - 128)
          if cp < 2048 || (55296 ≤ cp && cp < 57344) then .error .unicodeError
          else
            match utf8Decode rest2 with
            | .ok cps => .ok (cp :: cps)
            | .error e => .error e
        else .error .unicodeError
      | _ => .error .unicodeError
    else if b < 245 then
      match rest with
      | c1 :: c2 :: c3 :: rest2 =>
        if utf8Cont c1 && utf8Cont c2 && utf8Cont c3 then
          let cp := (b - 240) * 262144 + (c1 - 128) * 4096 +
            (c2 - 128) * 64 + (c3 - 128)
          if cp < 65536 || 1114111 < cp then .error .unicodeError
          else
            match utf8Decode rest2 with
            | .ok cps => .ok (cp :: cps)
            | .error e => .error e
        else .error .unicodeError
      | _ => .error .unicodeError
    else .error .unicodeError

/-- Code points stripped by Python `str.strip()` with no argument. -/
def pyIsSpace (c : Nat) : Bool :=
  c ∈ [9, 10, 11, 12, 13, 28, 29, 30, 31, 32, 133, 160, 5760,
    8192, 8193, 8194, 8195, 8196, 8197, 8198, 8199, 8200, 8201, 8202,
    8232, 8233, 8239, 8287, 12288]

/-- Python `str.strip()`: drop whitespace from both ends. -/
def pyStrip (s : List Nat) : List Nat :=
  ((s.dropWhile pyIsSpace).reverse.dropWhile pyIsSpace).reverse

/-- ASCII code points of a Lean string literal, for comparing decoded
Python strings against source-code literals. -/
def cp (s : String) : List Nat := s.toList.map Char.toNat

/-- `BinaryFileReader`: the whole file is in memory (`openFile` reads it
eagerly); a cursor and the configured processor type. -/
structure Reader where
  data : List Nat
  pos : Nat
  proc : Option ProcessorType
  deriving DecidableEq, Repr

/-- `file.read(length)`: return at most `length` bytes from the cursor
(everything to EOF when `length` is negative) and advance the cursor by
the number of bytes actually returned. -/
def Reader.readBytes (r : Reader) (length : Int) : List Nat × Reader :=
  let bs := if length < 0 then r.data.drop r.pos
            else (r.data.drop r.pos).take length.toNat
  (bs, { r with pos := r.pos + bs.length })

/-- `BinaryFileReader.seek`: negative targets raise `OSError`; seeking
past EOF is allowed. -/
def Reader.seek (r : Reader) (seekPos : Int) : Except PyErr Unit × Reader :=
  if seekPos < 0 then (.error .osError, r)
  else (.ok (), { r with pos := seekPos.toNat })

/-- `BinaryFileReader.tell`. -/
def Reader.tell (r : Reader) : Nat := r.pos

/-- `BinaryFileReader.readByte`: `struct.unpack` of one signed byte;
`struct.error` at EOF. -/
def Reader.readByte (r : Reader) : Except PyErr Int × Reader :=
  let (bs, r2) := r.readBytes 1
  match bs with
  | [b] => (.ok (toSigned 8 b), r2)
  | _ => (.error .structError, r2)

/-- `BinaryFileReader.readUnsignedByte`. -/
def Reader.readUnsignedByte (r : Reader) : Except PyErr Nat × Reader :=
  let (bs, r2) := r.readBytes 1
  match bs with
  | [b] => (.ok b, r2)
  | _ => (.error .structError, r2)

/-- `BinaryFileReader.readStringFromByte`: read `length` bytes (short at
EOF, with no error) and decode them as UTF-8. -/
def Reader.readStringFromByte (r : Reader) (length : Int) :
    Except PyErr (List Nat) × Reader :=
  let (bs, r2) := r.readBytes length
  (utf8Decode bs, r2)

/-- `BinaryFileReader.readInt`: two bytes decoded per the processor type.
(The fallback arm is unreachable: an INT unpack always yields an `.i`.) -/
def Reader.readInt (r : Reader) : Except PyErr Int × Reader :=
  let (bs, r2) := r.readBytes 2
  match readBasedOnProcessorType bs .INT r.proc with
  | .ok (.i n) => (.ok n, r2)
  | .error e => (.error e, r2)
  | .ok _ => (.error .typeError, r2)

/-- `BinaryFileReader.readLong`: four bytes decoded per the processor
type. -/
def Reader.readLong (r : Reader) : Except PyErr Int × Reader :=
  let (bs, r2) := r.readBytes 4
  match readBasedOnProcessorType bs .LONG r.proc with
  | .ok (.i n) => (.ok n, r2)
  | .error e => (.error e, r2)
  | .ok _ => (.error .typeError, r2)

/-- `BinaryFileReader.readFloat`: four bytes decoded per the processor
type. -/
def Reader.readFloat (r : Reader) : Except PyErr PyFloat × Reader :=
  let (bs, r2) := r.readBytes 4
  match readBasedOnProcessorType bs .FLOAT r.proc with
  | .ok (.f x) => (.ok x, r2)
  | .error e => (.error e, r2)
  | .ok _ => (.error .typeError, r2)

/-- Decode `n` consecutive little-endian float32 samples from a byte
buffer (`struct.unpack` format string made of `n` times f). -/
def bulkF32 (n : Nat) (bs : List Nat) : List PyVal :=
  (List.range n).map fun i => .f (f32FromBits (leNat ((bs.drop (4 * i)).take 4)))

/-- Decode `n` consecutive little-endian int16 samples from a byte
buffer (`struct.unpack` format string made of `n` times h). -/
def bulkI16 (n : Nat) (bs : List Nat) : List PyVal :=
  (List.range n).map fun i => .i (toSigned 16 (leNat ((bs.drop (2 * i)).take 2)))

/-- `BinaryFileReader.bulkReadFloat`: always little-endian, regardless of
the configured processor type.  A negative count makes the struct format
invalid and a short read leaves `struct.unpack` with too few bytes;
both raise `struct.error`. -/
def Reader.bulkReadFloat (r : Reader) (total : Int) :
    Except PyErr (List PyVal) × Reader :=
  if total < 0 then (.error .structError, r)
  else
    let (bs, r2) := r.readBytes (DataType.FLOAT.size * total)
    if bs.length = 4 * total.toNat then (.ok (bulkF32 total.toNat bs), r2)
    else (.error .structError, r2)

/-- `BinaryFileReader.bulkReadInt`: always little-endian int16 samples. -/
def Reader.bulkReadInt (r : Reader) (total : Int) :
    Except PyErr (List PyVal) × Reader :=
  if total < 0 then (.error .structError, r)
  else
    let (bs, r2) := r.readBytes (DataType.INT.size * total)
    if bs.length = 2 * total.toNat then (.ok (bulkI16 total.toNat bs), r2)
    else (.error .structError, r2)

/-- Does the Python value have exact type `int`? -/
def PyVal.isIntType : PyVal → Bool
  | .i _ => true
  | _ => false

/-- Does the Python value have exact type `float`? -/
def PyVal.isFloatType : PyVal → Bool
  | .f _ => true
  | _ => false

/-- The scalar `isinstance` chain at the end of
`ParameterDataTypes.getTypeFromData`: str maps to -1; an int below 255
maps to Byte (1) and otherwise to Interger (2); float maps to
FloatingPoint (4); anything else raises `ValueError`. -/
def scalarTypeFromData : PyVal → Except PyErr Int
  | .s _ => .ok (-1)
  | .i n => if n < 255 then .ok 1 else .ok 2
  | .f _ => .ok 4
  | _ => .error .valueError

/-- `ParameterDataTypes.getTypeFromData`: for a list, answer
FloatingPoint when both an int and a float occur, raise `ValueError` on
an empty list, and otherwise classify the first element with the scalar
chain; scalars go to the scalar chain directly. -/
def getTypeFromData : PyVal → Except PyErr Int
  | .lst vs =>
    if (vs.any PyVal.isIntType) && (vs.any PyVal.isFloatType) then .ok 4
    else
      match vs with
      | [] => .error .valueError
      | v :: _ => scalarTypeFromData v
  | v => scalarTypeFromData v

/-- `ParameterDataTypes.dataTypeCheck`: classification failures are
caught and give `False`; Byte data is accepted where Interger is
expected; otherwise the classified type must equal the requested one. -/
def dataTypeCheck (inputData : PyVal) (inputType : Int) : Bool :=
  match getTypeFromData inputData with
  | .error _ => false
  | .ok expectedData =>
    if expectedData = 1 && inputType = 2 then true
    else expectedData = inputType

/-- `_internals.Parameter`: name, description, locked flag, optional
data-type code and current value (`None` before any assignment). -/
structure Parameter where
  name : List Nat
  description : List Nat := []
  locked : Bool := false
  dataType : Option Int := Option.none
  data : PyVal := .none
  deriving DecidableEq, Repr

/-- `Parameter.setDataType`: with data already present the new type must
be compatible with it, else `ValueError`; then the type is stored. -/
def Parameter.setDataType (p : Parameter) (newValue : Int) :
    Except PyErr Parameter :=
  if p.data ≠ .none then
    if dataTypeCheck p.data newValue then
      .ok { p with dataType := some newValue }
    else .error .valueError
  else .ok { p with dataType := some newValue }

/-- `Parameter.setData`: `ValueError` when no data type is set or the
new value is incompatible with the stored type; the stored value is
only replaced on success. -/
def Parameter.setData (p : Parameter) (newData : PyVal) :
    Except PyErr Parameter :=
  match p.dataType with
  | Option.none => .error .valueError
  | some t =>
    if dataTypeCheck newData t then .ok { p with data := newData }
    else .error .valueError

/-- `_internals.ParameterGroup`: the id is stored as an absolute value
and a positive on-disk id marks the group locked. -/
structure ParameterGroup where
  name : List Nat
  groupId : Int
  description : List Nat := []
  locked : Bool := false
  parameters : List Parameter := []
  deriving DecidableEq, Repr

/-- `ParameterGroup.__init__(name, groupId)`: locked when the raw id is
positive; the stored id is its absolute value. -/
def mkParameterGroup (name : List Nat) (groupId : Int) : ParameterGroup :=
  { name := name, groupId := (groupId.natAbs : Int), locked := groupId > 0 }

/-- `ParameterGroup.getParameter`: first parameter with the given name. -/
def ParameterGroup.getParameter (g : ParameterGroup) (name : List Nat) :
    Option Parameter :=
  g.parameters.find? (fun p => p.name = name)

/-- A decoded `Vector3` produced by `C3DFile._quickVec`: the model keeps
the raw `_data` slice assigned to the vector (its first three entries
are the x, y, z accessors of `vector3.Vector3`). -/
abbrev Vec3 : Type := List PyVal

/-- `_internals.Marker`: a name and the per-frame position dictionary
(an association list keyed the way the Python dict is keyed). -/
structure Marker where
  markerName : PyVal
  data : List (Int × Option Vec3) := []
  deriving DecidableEq, Repr

/-- `Marker.__init__`: a marker with the given name and an empty frame
dictionary. -/
def mkMarker (markerName : PyVal) : Marker :=
  { markerName := markerName }

/-- `Marker.getPosition`: `dict.get(frameNumber)` returns `None` both
for a missing key and for a stored `None` (an occluded sample). -/
def Marker.getPosition (m : Marker) (frameNumber : Int) : Option Vec3 :=
  (m.data.lookup frameNumber).getD Option.none

/-- `_internals.Header` with the defaults set by its constructor (the
source field names, spelling included, are kept). -/
structure Header where
  parameterBlock : Int := 0
  markerCount : Int := 0
  analogMesasurements : Int := 0
  firstFrame : Int := 0
  lastFrame : Int := 0
  maxFrameGap : Int := 0
  scaleFactor : PyFloat := .fin 0
  dataStart : Int := 0
  sampleRate : Int := 0
  frameRate : PyFloat := .fin 0
  paramaterBlockCount : Int := 0
  processorType : Option ProcessorType := Option.none
  deriving DecidableEq, Repr

/-- The state of a `C3DFile` object together with its open
`BinaryFileReader`, for explicit state passing. -/
structure LoadState where
  reader : Reader
  header : Header
  parameters : List ParameterGroup := []
  markers : List Marker := []
  deriving DecidableEq, Repr

/-- The Python computation model: a state transformer whose exceptions
carry the state at the raise point (Python objects keep all mutations
made before an exception propagates). -/
def PyM (α : Type) : Type := LoadState → Except PyErr α × LoadState

instance : Monad PyM where
  pure a := fun s => (.ok a, s)
  bind x f := fun s =>
    match x s with
    | (.ok a, s2) => f a s2
    | (.error e, s2) => (.error e, s2)

/-- Run a reader primitive on the embedded `BinaryFileReader`. -/
def liftR (f : Reader → Except PyErr α × Reader) : PyM α := fun s =>
  let res := f s.reader
  (res.1, { s with reader := res.2 })

/-- Read the current state. -/
def getS : PyM LoadState := fun s => (.ok s, s)

/-- Update the current state. -/
def modifyS (f : LoadState → LoadState) : PyM Unit := fun s => (.ok (), f s)

/-- Raise a Python exception. -/
def raise (e : PyErr) : PyM α := fun s => (.error e, s)

/-- Lift a pure fallible computation. -/
def liftE (x : Except PyErr α) : PyM α := fun s => (x, s)

/-- A Python `try`/`except` block. -/
def tryCatchP (x : PyM α) (h : PyErr → PyM α) : PyM α := fun s =>
  match x s with
  | (.ok a, s2) => (.ok a, s2)
  | (.error e, s2) => h e s2

/-- Read the reader position (`handle.tell()`). -/
def tellP : PyM Nat := fun s => (.ok s.reader.tell, s)

/-- Update the header in place. -/
def setHeader (f : Header → Header) : PyM Unit :=
  modifyS fun s => { s with header := f s.header }

/-- Python `x == 0` on a decoded sample value. -/
def pyEqZero : PyVal → Bool
  | .i n => n = 0
  | .f x => x.eqZero
  | _ => false

/-- `C3DFile._quickVec`: `None` when the first three entries equal zero,
otherwise a vector whose `_data` is the given slice.  (A slice shorter
than three entries would raise `IndexError` inside a worker thread,
which `threading` swallows, leaving the frame absent either way.) -/
def quickVec (data : List PyVal) : Option Vec3 :=
  match data with
  | d0 :: d1 :: d2 :: _ =>
    if pyEqZero d0 && pyEqZero d1 && pyEqZero d2 then Option.none
    else some data
  | _ => Option.none

/-- `C3DFile.processMarkerData`: the frame dictionary maps each 0-based
frame index (an enumeration of `range(0, len(data), markerCount * 4)`)
to `_quickVec` of the marker's 4-sample slice.  A non-positive step
yields an empty dictionary: `range` with a negative step is empty, and
the `ValueError` of a zero step dies inside the worker thread leaving
the marker's dictionary at its initial empty value. -/
def processMarkerData (data : List PyVal) (markerIdx : Nat)
    (markerCount : Int) : List (Int × Option Vec3) :=
  let step : Int := markerCount * 4
  if step ≤ 0 then []
  else
    let stepN := step.toNat
    (List.range ((data.length + stepN - 1) / stepN)).map fun frame =>
      let idx := frame * stepN
      ((frame : Int), quickVec ((data.drop (idx + markerIdx * 4)).take 4))

/-- `C3DFile._readProcessorType`: map byte 84/85/86 to Intel/DEC/MIPS
(anything else to `None`), store it in the header and configure the
reader with it. -/
def readProcessorType : PyM Unit := do
  let processorType ← liftR (·.readByte)
  let newProc : Option ProcessorType :=
    if processorType = 84 then some .INTEL
    else if processorType = 85 then some .DEC
    else if processorType = 86 then some .MIPS
    else Option.none
  modifyS fun s => { s with
    header := { s.header with processorType := newProc },
    reader := { s.reader with proc := newProc } }

/-- One `field = self._handle.readInt(); self.header.field = ...` pair
of `_readHeader`, with the field assignment abstracted. -/
def readIntHeaderField (set : Int → Header → Header) : PyM Unit := do
  let v ← liftR (·.readInt)
  setHeader (set v)

/-- One `field = self._handle.readFloat(); self.header.field = ...`
pair of `_readHeader`. -/
def readFloatHeaderField (set : PyFloat → Header → Header) : PyM Unit := do
  let v ← liftR (·.readFloat)
  setHeader (set v)

/-- The word-decoding tail of `C3DFile._readHeader` (after the magic
byte): ten header words read in source order — five 16-bit integers,
the float scale factor, two more integers (`dataStart`, `sampleRate`)
and the float `frameRate`. -/
def readHeaderWords : PyM Unit := do
  readIntHeaderField fun v h => { h with markerCount := v }
  readIntHeaderField fun v h => { h with analogMesasurements := v }
  readIntHeaderField fun v h => { h with firstFrame := v }
  readIntHeaderField fun v h => { h with lastFrame := v }
  readIntHeaderField fun v h => { h with maxFrameGap := v }
  readFloatHeaderField fun v h => { h with scaleFactor := v }
  readIntHeaderField fun v h => { h with dataStart := v }
  readIntHeaderField fun v h => { h with sampleRate := v }
  readFloatHeaderField fun v h => { h with frameRate := v }

/-- `C3DFile._readHeader`: peek the processor type from the parameter
block, then check the magic byte (80) and decode the header words. -/
def readHeader : PyM Unit := do
  _ ← liftR (·.seek 0)
  let pb ← liftR (·.readByte)
  setHeader fun h => { h with parameterBlock := pb }
  let curPos ← tellP
  let s1 ← getS
  _ ← liftR (·.seek ((s1.header.parameterBlock - 1) * 512))
  _ ← liftR (·.readByte)
  _ ← liftR (·.readByte)
  _ ← liftR (·.readByte)
  readProcessorType
  _ ← liftR (·.seek (curPos : Int))
  let key ← liftR (·.readByte)
  if key ≠ 80 then raise .valueError
  else readHeaderWords

/-- `C3DFile._readDescription`. -/
def readDescription : PyM (List Nat) := do
  let paramDescirptionLength ← liftR (·.readByte)
  if paramDescirptionLength = 0 then pure []
  else liftR (·.readStringFromByte paramDescirptionLength)

/-- `C3DFile._newParam`: build the group, attach the description read
from the record, and append the group to the parameter list. -/
def newParam (name : List Nat) (groupId : Int) : PyM Unit := do
  let desc ← readDescription
  modifyS fun s => { s with parameters :=
    s.parameters ++ [{ mkParameterGroup name groupId with description := desc }] }

/-- `C3DFile.getParameterByGroupId`, returning the list index of the
matching group so the model can write updates back to it. -/
def getParameterByGroupIdx (parameters : List ParameterGroup)
    (groupId : Int) : Option Nat :=
  parameters.findIdx? (fun param => param.groupId = (groupId.natAbs : Int))

/-- `C3DFile.getParameterGroup`: first group with the given name. -/
def getParameterGroupByName (parameters : List ParameterGroup)
    (name : List Nat) : Option ParameterGroup :=
  parameters.find? (fun param => param.name = name)

/-- `ParameterGroup.addNewProperty` at group index `gIdx`: append a
fresh `Parameter(name)` to that group. -/
def addNewPropertyAt (parameters : List ParameterGroup) (gIdx : Nat)
    (name : List Nat) : List ParameterGroup :=
  match parameters.get? gIdx with
  | Option.none => parameters
  | some g => parameters.set gIdx
      { g with parameters := g.parameters ++ [{ name := name }] }

/-- Apply a fallible in-place mutation to the parameter object returned
by `addNewProperty` (the last parameter of group `gIdx`); on an
exception the parameter keeps its previous fields. -/
def updateLastParam (gIdx : Nat) (f : Parameter → Except PyErr Parameter) :
    PyM Unit := fun s =>
  match s.parameters.get? gIdx with
  | Option.none => (.error .typeError, s)
  | some g =>
    match g.parameters.getLast? with
    | Option.none => (.error .typeError, s)
    | some p =>
      match f p with
      | .error e => (.error e, s)
      | .ok p2 =>
        let g2 : ParameterGroup :=
          { g with parameters := g.parameters.dropLast ++ [p2] }
        (.ok (), { s with parameters := s.parameters.set gIdx g2 })

/-- `C3DFile._readPropertyValue`: dispatch on the property type code;
unknown codes raise `ValueError`. -/
def readPropertyValue (propertyType : Int) : PyM PyVal :=
  if propertyType = -1 then do
    let nameLength ← liftR (·.readByte)
    let str ← liftR (·.readStringFromByte nameLength)
    pure (.s str)
  else if propertyType = 1 then do
    let b ← liftR (·.readByte)
    pure (.i b)
  else if propertyType = 2 then do
    let n ← liftR (·.readInt)
    pure (.i n)
  else if propertyType = 4 then do
    let x ← liftR (·.readFloat)
    pure (.f x)
  else raise .valueError

/-- The non-string array loop of `_readParamBlock`: `dataDimensions`
scalar reads appended in order. -/
def readPropertyList (propertyType : Int) : Nat → PyM (List PyVal)
  | 0 => pure []
  | n + 1 => do
    let v ← readPropertyValue propertyType
    let vs ← readPropertyList propertyType n
    pure (v :: vs)

/-- The string-array loop of `_readParamBlock`: each iteration tries to
read and strip one fixed-width string and append it to the accumulated
value; a bare `except` replaces the accumulated value with the sentinel
list and the loop continues with the remaining iterations. -/
def stringArrayLoop (value : List PyVal) (stringSize : Int) :
    Nat → PyM (List PyVal)
  | 0 => pure value
  | n + 1 => do
    let value2 ← tryCatchP
      (do
        let str ← liftR (·.readStringFromByte stringSize)
        pure (value ++ [PyVal.s (pyStrip str)]))
      (fun _ => pure [PyVal.s (cp "UNABLE TO READ VALUE")])
    stringArrayLoop value2 stringSize n

/-- The value-decoding block of `_readParamBlock` (lines between the
`dataDimensions` read and the `setDataType` call): strings, string
arrays, scalars and scalar arrays. -/
def readParamValue (dataType dataDimensions : Int) : PyM PyVal :=
  if dataType = -1 then do
    let stringSize ← liftR (·.readByte)
    if dataDimensions > 1 then do
      let arraySize ← liftR (·.readUnsignedByte)
      let value0 : List PyVal := if arraySize = 0 then [.s []] else []
      let arr ← stringArrayLoop value0 stringSize arraySize
      pure (PyVal.lst arr)
    else do
      let str ← liftR (·.readStringFromByte stringSize)
      pure (PyVal.s (pyStrip str))
  else if dataDimensions = 0 then readPropertyValue dataType
  else do
    let vs ← readPropertyList dataType dataDimensions.toNat
    pure (PyVal.lst vs)

/-- The parameter branch of `_readParamBlock` (taken when the group id
already exists): append the new property, read its type, dimensions and
value, assign them, and seek to `currentFilePos + bytesToNextGroup`. -/
def readParamTail (gIdx : Nat) (groupName : List Nat)
    (currentFilePos : Nat) (bytesToNextGroup : Int) : PyM Bool := do
  modifyS fun s2 =>
    { s2 with parameters := addNewPropertyAt s2.parameters gIdx groupName }
  let dataType ← liftR (·.readByte)
  let dataDimensions ← liftR (·.readByte)
  let value ← readParamValue dataType dataDimensions
  updateLastParam gIdx (fun p => p.setDataType dataType)
  updateLastParam gIdx (fun p => p.setData value)
  _ ← liftR (·.seek ((currentFilePos : Int) + bytesToNextGroup))
  pure true

/-- `C3DFile._readParamBlock`: one record of the parameter block. -/
def readParamBlock : PyM Bool := do
  let b ← liftR (·.readByte)
  let nameLength : Int := (b.natAbs : Int)
  if nameLength = 0 then pure false
  else do
    let groupId ← liftR (·.readByte)
    let groupName ← liftR (·.readStringFromByte nameLength)
    let currentFilePos ← tellP
    let bytesToNextGroup ← liftR (·.readInt)
    if bytesToNextGroup = 0 then pure false
    else do
      let s ← getS
      match getParameterByGroupIdx s.parameters groupId with
      | Option.none => do
        newParam groupName groupId
        pure true
      | some gIdx =>
        readParamTail gIdx groupName currentFilePos bytesToNextGroup

/-- The `while True` loop of `_readParameters`, with fuel for the model
(the Python loop can diverge on adversarial offsets). -/
def readParamLoop : Nat → PyM Unit
  | 0 => raise .fuelExhausted
  | fuel + 1 => do
    let cont ← readParamBlock
    if cont then readParamLoop fuel else pure ()

/-- `C3DFile._readParameters`. -/
def readParamPrologue : PyM Unit := do
  let s ← getS
  _ ← liftR (·.seek ((s.header.parameterBlock - 1) * 512))
  _ ← liftR (·.readByte)
  _ ← liftR (·.readByte)
  let cnt ← liftR (·.readByte)
  setHeader fun h => { h with paramaterBlockCount := cnt }
  readProcessorType

def readParameters (fuel : Nat) : PyM Unit := do
  readParamPrologue
  readParamLoop fuel

/-- `C3DFile.getMarkerCount`. -/
def getMarkerCount (s : LoadState) : Int := s.header.markerCount

/-- `C3DFile.getSampleRate`: returns the header's `frameRate` field. -/
def getSampleRate (s : LoadState) : PyFloat := s.header.frameRate

/-- Python iteration over a parameter value: lists iterate their
elements, strings iterate their characters, scalars raise `TypeError`. -/
def pyIter : PyVal → Except PyErr (List PyVal)
  | .lst vs => .ok vs
  | .s cs => .ok (cs.map fun c => .s [c])
  | _ => .error .typeError

/-- The sample count computed by `_readMarkers`:
`((lastFrame - firstFrame) * markerCount) * 4`. -/
def numberOfDataPoints (header : Header) (markerCount : Int) : Int :=
  ((header.lastFrame - header.firstFrame) * markerCount) * 4

/-- Python `x < 0` on a parameter value. -/
def pyLtZero : PyVal → Except PyErr Bool
  | .i n => .ok (n < 0)
  | .f x => .ok x.isNeg
  | _ => .error .typeError

/-- Python `value * pointScale` for a decoded int16 sample `value` (the
string and list cases are Python sequence repetition; only the int and
float cases are reachable from `_readMarkers`). -/
def pyMul (value scale : PyVal) : Except PyErr PyVal :=
  match value, scale with
  | .i a, .i b => .ok (.i (a * b))
  | .i a, .f x => .ok (.f (x.mulInt a))
  | .i a, .s cs => .ok (.s (List.flatten (List.replicate a.toNat cs)))
  | .i a, .lst vs => .ok (.lst (List.flatten (List.replicate a.toNat vs)))
  | _, _ => .error .typeError

/-- `C3DFile._readMarkers`: resolve LABELS/LABELS2 into markers, check
the count against the header, read the bulk sample region (floats when
the POINT SCALE is negative, else scaled int16s) and distribute it to
the markers.  The per-marker threads write disjoint slots and are
joined, so they are modelled as a deterministic map. -/
def readMarkers : PyM Unit := do
  let s ← getS
  match getParameterGroupByName s.parameters (cp "POINT") with
  | Option.none => pure ()
  | some pointGroup =>
    match pointGroup.getParameter (cp "LABELS") with
    | Option.none => pure ()
    | some markers => do
      let markers2 := pointGroup.getParameter (cp "LABELS2")
      let names ← liftE (pyIter markers.data)
      modifyS fun s2 => { s2 with markers := s2.markers ++ names.map mkMarker }
      match markers2 with
      | some m2 => do
        let names2 ← liftE (pyIter m2.data)
        modifyS fun s2 => { s2 with markers := s2.markers ++ names2.map mkMarker }
      | Option.none => pure ()
      let s2 ← getS
      if (s2.markers.length : Int) ≠ getMarkerCount s2 then raise .valueError
      else do
        let startOfDataBlock : Int := (s2.header.dataStart - 1) * 512
        _ ← liftR (·.seek startOfDataBlock)
        match pointGroup.getParameter (cp "SCALE") with
        | Option.none => raise .attributeError
        | some scaleParam => do
          let pointScale := scaleParam.data
          let n : Int := numberOfDataPoints s2.header (getMarkerCount s2)
          let neg ← liftE (pyLtZero pointScale)
          let data ←
            if neg then liftR (·.bulkReadFloat n)
            else do
              let ints ← liftR (·.bulkReadInt n)
              liftE (ints.mapM fun value => pyMul value pointScale)
          modifyS fun s3 =>
            let newMarkers := s3.markers.mapIdx fun markerIdx marker =>
              { marker with data := processMarkerData data markerIdx (getMarkerCount s3) }
            { s3 with markers := newMarkers }

/-- The state of a freshly constructed `C3DFile` with an open reader on
the given bytes (`reset()` restores exactly these defaults). -/
def initialState (fileBytes : List Nat) : LoadState :=
  { reader := { data := fileBytes, pos := 0, proc := Option.none }, header := {} }

/-- `C3DFile.loadFile` on a file whose content is `fileBytes`: reset,
read the header, the parameter block and the markers.  The result pairs
the outcome (`ok` or the raised exception) with the final object state,
which Python keeps even when the load raises. -/
def loadFile (fileBytes : List Nat) : Except PyErr Unit × LoadState :=
  (do
    readHeader
    readParameters (fileBytes.length + 1)
    readMarkers) (initialState fileBytes)

/-- `C3DFile.readFrame`: validate the frame range, then collect each
marker's position for that frame, in marker order. -/
def readFrame (s : LoadState) (frameNumber : Int) :
    Except PyErr (List (Option Vec3)) :=
  if frameNumber < s.header.firstFrame ∨ frameNumber > s.header.lastFrame then
    .error .valueError
  else .ok (s.markers.map (·.getPosition frameNumber))

/-- Pad a block image to the 512-byte block size with zero bytes. -/
def padBlock (bs : List Nat) : List Nat :=
  bs ++ List.replicate (512 - bs.length) 0

/-- Header block of the minimal synthetic end-to-end file: parameter
block 2, magic 80, markerCount 2, analog 0, firstFrame 1, lastFrame 2,
maxFrameGap 0, scaleFactor -1.0f, dataStart 3, sampleRate 120,
frameRate 120.0f (all little-endian; float32 bit patterns). -/
def c1Header : List Nat :=
  [2, 80, 2, 0, 0, 0, 1, 0, 2, 0, 0, 0,
   0, 0, 128, 191, 3, 0, 120, 0, 0, 0, 240, 66]

/-- Parameter block of the synthetic file: reserved bytes, block count
1, processor byte 84 (Intel); a POINT group-header record (id -1,
bytesToNext 3, empty description); a LABELS string-array parameter
(id 1, element width 1, two elements A and B); a SCALE float parameter
(id 1, value -1.0f); a zero name length terminating the chain. -/
def c1ParamBlock : List Nat :=
  [0, 0, 1, 84,
   5, 255, 80, 79, 73, 78, 84, 3, 0, 0,
   6, 1, 76, 65, 66, 69, 76, 83, 8, 0, 255, 2, 1, 2, 65, 66,
   5, 1, 83, 67, 65, 76, 69, 8, 0, 4, 0, 0, 0, 128, 191,
   0]

/-- Data block of the synthetic file: two frames of float32 samples for
two markers, frame 1 holding (1,2,3) and (4,5,6) with zero residual
words; the second frame is all zeros. -/
def c1Data : List Nat :=
  [0, 0, 128, 63, 0, 0, 0, 64, 0, 0, 64, 64, 0, 0, 0, 0,
   0, 0, 128, 64, 0, 0, 160, 64, 0, 0, 192, 64, 0, 0, 0, 0,
   0, 0, 0, 0, 0, 0, 0, 0, 0, 0, 0, 0, 0, 0, 0, 0,
   0, 0, 0, 0, 0, 0, 0, 0, 0, 0, 0, 0, 0, 0, 0, 0]

/-- The complete minimal synthetic C3D file of the end-to-end property. -/
def c1File : List Nat :=
  padBlock c1Header ++ padBlock c1ParamBlock ++ c1Data

/-- The document state produced by loading the synthetic file. -/
def c1State : LoadState := (loadFile c1File).2

/-- A marker with a stored position at frame 1, for the `readFrame`
example. -/
def c8Marker : Marker :=
  { markerName := .s [65], data := [((1 : Int), some [PyVal.f (.fin 7)])] }

/-- A small concrete document for exercising `readFrame`: frames 1..2,
one marker with a stored position at frame 1. -/
def c8Doc : LoadState :=
  { reader := { data := [], pos := 0, proc := Option.none },
    header := { firstFrame := 1, lastFrame := 2 },
    markers := [c8Marker] }

/-- The parameter of the C9 example: name X, assigned kind Interger. -/
def c9Param : Parameter := { name := [88], dataType := some 2 }

/-- A 16-byte reader for exercising the sample-region theorem. -/
def c6Reader : Reader :=
  { data := List.replicate 16 0, pos := 0, proc := Option.none }

/-- A header spanning one frame step with one marker, so the sample
count is 4. -/
def c6Header : Header := { firstFrame := 0, lastFrame := 1 }

/-- The per-iteration outcomes of the string-array loop: the UTF-8
decode result of each fixed-width chunk, in order. -/
def chunkOutcomes (r : Reader) (size n : Nat) :
    List (Except PyErr (List Nat)) :=
  (List.range n).map fun (i : Nat) =>
    utf8Decode ((r.data.drop (r.pos + size * i)).take size)

/-- The value accumulated by the string-array loop, as a function of the
per-iteration outcomes: a success appends the stripped string, a failure
resets the accumulator to the one-element sentinel and the loop goes on. -/
def stringArrayResult (value : List PyVal) :
    List (Except PyErr (List Nat)) → List PyVal
  | [] => value
  | .ok str :: rest =>
    stringArrayResult (value ++ [PyVal.s (pyStrip str)]) rest
  | .error _ :: rest =>
    stringArrayResult [PyVal.s (cp "UNABLE TO READ VALUE")] rest

/-- The state after the reader cursor has advanced by `k` bytes. -/
def advanceReader (s : LoadState) (k : Nat) : LoadState :=
  { s with reader := { s.reader with pos := s.reader.pos + k } }

/-- A parameter-block record for a two-element string array whose first
string is the invalid UTF-8 byte 0xFF and whose second string is B,
processed against a pre-existing group with id 1.  A terminating zero
name length follows the record. -/
def c4State : LoadState :=
  { reader :=
      ({ data := [4, 1, 76, 66, 76, 83, 8, 0, 255, 2, 1, 2, 255, 66, 0],
         pos := 0, proc := Option.none } : Reader),
    header := {},
    parameters := [mkParameterGroup (cp "POINT") (-1)],
    markers := [] }

/-- The state after processing the record with the broken string. -/
def c4Out : LoadState := (readParamBlock c4State).2

/-- A two-byte buffer whose first 1-byte string is invalid UTF-8 and
whose second is B, for the string-array witness. -/
def c4WitState : LoadState :=
  { reader := { data := [255, 66], pos := 0, proc := Option.none },
    header := {} }

/-- The 16-bit integer decoded at absolute offset `k` of a reader, per
its configured processor type (the value `readInt` would return there). -/
def intAt (r : Reader) (k : Nat) : Int :=
  match readBasedOnProcessorType ((r.data.drop k).take 2) .INT r.proc with
  | .ok (.i n) => n
  | _ => 0

/-- A group-header record: name length 5, group id -1 (no group with id
1 exists yet), name POINT, bytesToNext 10, empty description.  With
`recordStart = 7`, the claim would put the cursor at 17. -/
def c3State : LoadState :=
  { reader :=
      ({ data := [5, 255, 80, 79, 73, 78, 84, 10, 0, 0],
         pos := 0, proc := Option.none } : Reader),
    header := {} }

/-- A parameter record against an existing group with id 1: name LBLS,
bytesToNext 8, a scalar float value. -/
def c3ParamState : LoadState :=
  { reader :=
      ({ data := [4, 1, 76, 66, 76, 83, 8, 0, 4, 0, 0, 0, 128, 191, 0],
         pos := 0, proc := Option.none } : Reader),
    header := {},
    parameters := [mkParameterGroup (cp "POINT") (-1)] }

/-- The state after processing the parameter record. -/
def c3ParamOut : LoadState := (readParamBlock c3ParamState).2

def hdrLit : Header :=
  { parameterBlock := 2, markerCount := 2, analogMesasurements := 0,
    firstFrame := 1, lastFrame := 2, maxFrameGap := 0,
    scaleFactor := f32FromBits (leNat [0, 0, 128, 191]),
    dataStart := 3, sampleRate := 120,
    frameRate := f32FromBits (leNat [0, 0, 240, 66]),
    paramaterBlockCount := 0, processorType := some .INTEL }

def sHlit : LoadState :=
  { reader := ({ data := c1File, pos := 24, proc := some .INTEL } : Reader),
    header := hdrLit }

def sP0lit : LoadState :=
  { reader := ({ data := c1File, pos := 516, proc := some .INTEL } : Reader),
    header := { hdrLit with paramaterBlockCount := 1 } }

def grpPOINT : ParameterGroup :=
  { name := [80, 79, 73, 78, 84], groupId := 1 }

def sP1lit : LoadState :=
  { sP0lit with
    reader := ({ data := c1File, pos := 526, proc := some .INTEL } : Reader),
    parameters := [grpPOINT] }

def paramLABELS : Parameter :=
  { name := [76, 65, 66, 69, 76, 83], dataType := some (-1),
    data := .lst [.s [65], .s [66]] }

def paramSCALE : Parameter :=
  { name := [83, 67, 65, 76, 69], dataType := some 4,
    data := .f (f32FromBits (leNat [0, 0, 128, 191])) }

def sP2lit : LoadState :=
  { sP0lit with
    reader := ({ data := c1File, pos := 542, proc := some .INTEL } : Reader),
    parameters := [{ grpPOINT with parameters := [paramLABELS] }] }

def sP3lit : LoadState :=
  { sP0lit with
    reader := ({ data := c1File, pos := 557, proc := some .INTEL } : Reader),
    parameters := [{ grpPOINT with parameters := [paramLABELS, paramSCALE] }] }

def sP4lit : LoadState :=
  { sP0lit with
    reader := ({ data := c1File, pos := 558, proc := some .INTEL } : Reader),
    parameters := [{ grpPOINT with parameters := [paramLABELS, paramSCALE] }] }

def vecA : Vec3 :=
  [PyVal.f (f32FromBits (leNat [0, 0, 128, 63])),
   PyVal.f (f32FromBits (leNat [0, 0, 0, 64])),
   PyVal.f (f32FromBits (leNat [0, 0, 64, 64])),
   PyVal.f (f32FromBits (leNat [0, 0, 0, 0]))]

def vecB : Vec3 :=
  [PyVal.f (f32FromBits (leNat [0, 0, 128, 64])),
   PyVal.f (f32FromBits (leNat [0, 0, 160, 64])),
   PyVal.f (f32FromBits (leNat [0, 0, 192, 64])),
   PyVal.f (f32FromBits (leNat [0, 0, 0, 0]))]

def sFinLit : LoadState :=
  { sP4lit with
    reader := ({ data := c1File, pos := 1056, proc := some .INTEL } : Reader),
    markers := [{ markerName := .s [65], data := [(0, some vecA)] },
                { markerName := .s [66], data := [(0, some vecB)] }] }

def intOfBytes (bs : List Nat) (p : Option ProcessorType) : Int :=
  match readBasedOnProcessorType bs .INT p with
  | .ok (.i n) => n
  | _ => 0

def floatOfBytes (bs : List Nat) (p : Option ProcessorType) : PyFloat :=
  match readBasedOnProcessorType bs .FLOAT p with
  | .ok (.f x) => x
  | _ => .nan

def c10State : LoadState :=
  { reader := { data := [0, 0, 0, 0, 0, 0, 0, 0, 0, 0, 0, 0, 0, 0, 0, 0,
      120, 0, 0, 0, 160, 66], pos := 0, proc := some .INTEL },
    header := {} }

/-- Header block with `markerCount = 3`, otherwise identical to the
synthetic file's header; the parameter block still defines only the two
labels A and B. -/
def c5Header : List Nat :=
  [2, 80, 3, 0, 0, 0, 1, 0, 2, 0, 0, 0,
   0, 0, 128, 191, 3, 0, 120, 0, 0, 0, 240, 66]

/-- A file whose LABELS count (2) mismatches the header marker count
(3): loading must fail at the marker-count check. -/
def c5File : List Nat := padBlock c5Header ++ padBlock c1ParamBlock

def hdr5Lit : Header := { hdrLit with markerCount := 3 }

def s5Hlit : LoadState :=
  { reader := ({ data := c5File, pos := 24, proc := some .INTEL } : Reader),
    header := hdr5Lit }

def s5P0lit : LoadState :=
  { reader := ({ data := c5File, pos := 516, proc := some .INTEL } : Reader),
    header := { hdr5Lit with paramaterBlockCount := 1 } }

def s5P1lit : LoadState :=
  { s5P0lit with
    reader := ({ data := c5File, pos := 526, proc := some .INTEL } : Reader),
    parameters := [grpPOINT] }

def s5P2lit : LoadState :=
  { s5P0lit with
    reader := ({ data := c5File, pos := 542, proc := some .INTEL } : Reader),
    parameters := [{ grpPOINT with parameters := [paramLABELS] }] }

def s5P3lit : LoadState :=
  { s5P0lit with
    reader := ({ data := c5File, pos := 557, proc := some .INTEL } : Reader),
    parameters := [{ grpPOINT with parameters := [paramLABELS, paramSCALE] }] }

def s5P4lit : LoadState :=
  { s5P0lit with
    reader := ({ data := c5File, pos := 558, proc := some .INTEL } : Reader),
    parameters := [{ grpPOINT with parameters := [paramLABELS, paramSCALE] }] }

def s5FinLit : LoadState :=
  { s5P4lit with
    markers := [{ markerName := .s [65] }, { markerName := .s [66] }] }

/-- The document state after the failed load. -/
def c5State : LoadState := (loadFile c5File).2

/-- The LABELS parameter of the C5 witness document: a string array
holding the single label A. -/
def c5WitLabels : Parameter :=
  { name := cp "LABELS", dataType := some (-1), data := .lst [.s [65]] }

/-- A document with a POINT group holding a single label A but a header
marker count of 5, for the C5 witness. -/
def c5WitGroup : ParameterGroup :=
  { mkParameterGroup (cp "POINT") (-1) with parameters := [c5WitLabels] }

/-- The witness document around `c5WitGroup`. -/
def c5WitState : LoadState :=
  { reader := ({ data := [], pos := 0, proc := Option.none } : Reader),
    header := { markerCount := 5 },
    parameters := [c5WitGroup] }

theorem beNat_reverse (bs : List Nat) : beNat bs.reverse = leNat bs := by
  simp [beNat, List.reverse_reverse]

theorem unpackBE_reverse (t : DataType) (bs : List Nat) :
    unpackBE t bs.reverse = unpackLE t bs := by
  simp [unpackBE, unpackLE, beNat_reverse]

/-- Claim C2, behaviour of the code at the failing input: the DEC branch
of `_readBasedOnProcessorType` reverses the bytes and then unpacks them
big-endian, which cancels out, so the DEC decoding coincides with the
Intel little-endian decoding for every field and every scalar kind; in
particular at the 4-byte pattern 01 02 03 04 the Intel and DEC decodings
are the same number (while MIPS does differ), so the three decodings are
not pairwise distinct as the specification asserts. -/
theorem claim_c2_dec_equals_intel :
    (∀ (data : List Nat) (dataType : DataType),
      readBasedOnProcessorType data dataType (some .DEC) =
        readBasedOnProcessorType data dataType (some .INTEL)) ∧
    readBasedOnProcessorType [1, 2, 3, 4] .LONG (some .DEC) =
      .ok (.i 67305985) ∧
    readBasedOnProcessorType [1, 2, 3, 4] .LONG (some .INTEL) =
      .ok (.i 67305985) ∧
    readBasedOnProcessorType [1, 2, 3, 4] .LONG (some .MIPS) =
      .ok (.i 17040130) := by
  refine ⟨fun data dataType => ?_, by decide, by decide, by decide⟩
  simp [readBasedOnProcessorType, unpackBE_reverse]

theorem lookup_range'_map {β : Type} (g : Nat → β) :
    ∀ (s n k : Nat), s ≤ k → k < s + n →
      (((List.range' s n).map (fun (f : Nat) => ((f : Int), g f))).lookup
        (k : Int)) = some (g k) := by
  intro s n
  induction n generalizing s with
  | zero => omega
  | succ n ih =>
    intro k hks hkn
    rw [List.range'_succ, List.map_cons, List.lookup_cons]
    by_cases hk : k = s
    · subst hk; simp
    · have hne : ((k : Int) == (s : Int)) = false := by
        simp only [beq_eq_false_iff_ne, ne_eq, Int.natCast_inj]
        exact hk
      rw [hne]
      exact ih (s + 1) k (by omega) (by omega)

theorem lookup_range_map {β : Type} (g : Nat → β) (n k : Nat) (hk : k < n) :
    (((List.range n).map (fun (f : Nat) => ((f : Int), g f))).lookup (k : Int))
      = some (g k) := by
  rw [List.range_eq_range']
  exact lookup_range'_map g 0 n k (Nat.zero_le k) (by omega)

/-- Claim C7: whenever the three coordinate entries of a marker's
4-sample slice for a frame are all Python-equal to zero, the frame
dictionary built by `processMarkerData` records that frame as `None`
(absent), and `Marker.getPosition` on a marker carrying that dictionary
returns the absent value. -/
theorem claim_c7_all_zero_sample_is_absent (data : List PyVal)
    (markerName : PyVal) (markerIdx : Nat) (markerCount : Int) (frame : Nat)
    (hstep : 0 < markerCount)
    (hframe : frame < (data.length + (markerCount * 4).toNat - 1)
      / (markerCount * 4).toNat)
    (hzero : ∀ v ∈ ((data.drop (frame * (markerCount * 4).toNat
      + markerIdx * 4)).take 4).take 3, pyEqZero v = true) :
    (processMarkerData data markerIdx markerCount).lookup (frame : Int)
      = some Option.none ∧
    Marker.getPosition
      { markerName := markerName,
        data := processMarkerData data markerIdx markerCount }
      (frame : Int) = Option.none := by
  have hstep4 : ¬ (markerCount * 4 ≤ 0) := by omega
  have hlookup : (processMarkerData data markerIdx markerCount).lookup
      (frame : Int) = some (quickVec ((data.drop (frame * (markerCount * 4).toNat
        + markerIdx * 4)).take 4)) := by
    unfold processMarkerData
    rw [if_neg hstep4]
    exact lookup_range_map _ _ frame hframe
  have hvec : quickVec ((data.drop (frame * (markerCount * 4).toNat
      + markerIdx * 4)).take 4) = Option.none := by
    cases hsl : (data.drop (frame * (markerCount * 4).toNat
        + markerIdx * 4)).take 4 with
    | nil => rfl
    | cons d0 t0 =>
      cases t0 with
      | nil => rfl
      | cons d1 t1 =>
        cases t1 with
        | nil => rfl
        | cons d2 t2 =>
          rw [hsl] at hzero
          simp only [List.take, List.mem_cons] at hzero
          simp only [quickVec]
          rw [if_pos]
          simp only [Bool.and_eq_true]
          refine ⟨⟨?_, ?_⟩, ?_⟩
          · exact hzero d0 (by simp)
          · exact hzero d1 (by simp)
          · exact hzero d2 (by simp)
  rw [hlookup, hvec]
  refine ⟨rfl, ?_⟩
  unfold Marker.getPosition
  simp only
  rw [hlookup, hvec]
  rfl

/-- Claim C7 witness: a one-marker, one-frame buffer whose sample is
(0, 0, 0, 0) is looked up as absent. -/
theorem claim_c7_witness :
    ((processMarkerData (List.replicate 4 (PyVal.f (.fin 0))) 0 1).lookup
        ((0 : Nat) : Int) = some Option.none ∧
      Marker.getPosition
        { markerName := PyVal.s [65],
          data := processMarkerData (List.replicate 4 (PyVal.f (.fin 0))) 0 1 }
        ((0 : Nat) : Int) = Option.none) :=
  claim_c7_all_zero_sample_is_absent (List.replicate 4 (PyVal.f (.fin 0)))
    (PyVal.s [65]) 0 1 0 (by decide) (by decide) (by decide)

/-- Claim C8: `readFrame` fails with the frame-range error exactly when
the frame is below `firstFrame` or above `lastFrame`; at both boundary
values it succeeds and returns one optional position per marker, in
marker-list order.  (`readFrame` is embedded as a pure function of the
document state: the source method only reads `_header` and `_markers`,
so the document state is unaffected.) -/
theorem claim_c8_readFrame_range (s : LoadState) (frame : Int) :
    (readFrame s frame = .error .valueError ↔
      (frame < s.header.firstFrame ∨ s.header.lastFrame < frame)) ∧
    (s.header.firstFrame ≤ s.header.lastFrame →
      readFrame s s.header.firstFrame =
        .ok (s.markers.map (fun marker =>
          marker.getPosition s.header.firstFrame)) ∧
      readFrame s s.header.lastFrame =
        .ok (s.markers.map (fun marker =>
          marker.getPosition s.header.lastFrame))) := by
  constructor
  · unfold readFrame
    split
    · rename_i h
      simp only [eq_self_iff_true, true_iff]
      exact h
    · rename_i h
      constructor
      · intro hc; exact Except.noConfusion hc
      · intro hc; exact absurd hc h
  · intro hle
    constructor
    · unfold readFrame
      rw [if_neg (by omega)]
    · unfold readFrame
      rw [if_neg (by omega)]

/-- Claim C8 witness: at the concrete document, frame 3 fails exactly
because it exceeds `lastFrame`, and both boundary frames succeed with
one optional position per marker. -/
theorem claim_c8_witness :
    ((readFrame c8Doc 3 = .error .valueError ↔
      ((3 : Int) < c8Doc.header.firstFrame ∨ c8Doc.header.lastFrame < 3)) ∧
      (readFrame c8Doc c8Doc.header.firstFrame =
        .ok (c8Doc.markers.map (fun marker =>
          marker.getPosition c8Doc.header.firstFrame)) ∧
        readFrame c8Doc c8Doc.header.lastFrame =
          .ok (c8Doc.markers.map (fun marker =>
            marker.getPosition c8Doc.header.lastFrame)))) :=
  ⟨(claim_c8_readFrame_range c8Doc 3).1,
    (claim_c8_readFrame_range c8Doc 3).2 (by decide)⟩

/-- Claim C9, counterexample: with the assigned kind Interger (2),
`setData 5` succeeds and stores the value, yet the code's own
classifier (`getTypeFromData`) assigns the stored value the kind Byte
(1), which differs from the assigned kind — so `setData` does store a
value whose kind differs from the parameter's assigned data kind. -/
theorem claim_c9_counterexample :
    c9Param.setData (.i 5) = .ok { c9Param with data := .i 5 } ∧
    getTypeFromData (.i 5) = .ok 1 ∧ (1 : Int) ≠ 2 := by
  refine ⟨by decide, by decide, by decide⟩

/-- Claim C9 (amended): once a data kind `t` is assigned, `setData v`
either succeeds — exactly when `dataTypeCheck` accepts `v` — storing
precisely `v`, in which case `v` classifies as kind `t` or classifies
as Byte while `t` is Interger (a widening the check deliberately
allows); or it fails with a ValueError and performs no assignment, so
the stored value is unchanged. -/
theorem claim_c9_amended_setData (p : Parameter) (t : Int) (v : PyVal)
    (ht : p.dataType = some t) :
    (dataTypeCheck v t = true ∧ p.setData v = .ok { p with data := v } ∧
      (getTypeFromData v = .ok t ∨ (getTypeFromData v = .ok 1 ∧ t = 2))) ∨
    (dataTypeCheck v t = false ∧ p.setData v = .error .valueError) := by
  have hset : p.setData v = (if dataTypeCheck v t = true
      then .ok { p with data := v } else .error .valueError) := by
    simp only [Parameter.setData, ht]
  by_cases h : dataTypeCheck v t = true
  · left
    refine ⟨h, by rw [hset, if_pos h], ?_⟩
    have h2 := h
    unfold dataTypeCheck at h2
    cases hg : getTypeFromData v with
    | error e => rw [hg] at h2; simp at h2
    | ok k =>
      rw [hg] at h2
      simp only [Bool.and_eq_true, decide_eq_true_eq] at h2
      by_cases hk : k = 1 ∧ t = 2
      · right
        refine ⟨?_, hk.2⟩
        rw [hk.1]
      · left
        rw [if_neg hk] at h2
        have hkt : k = t := by simpa using h2
        rw [hkt]
  · right
    simp only [Bool.not_eq_true] at h
    exact ⟨h, by rw [hset, if_neg (by simp [h])]⟩

/-- Claim C9 witness: the amended theorem applied to the concrete
parameter with kind Interger and the value 5 (the left branch holds,
through the Byte-into-Interger widening). -/
theorem claim_c9_amended_witness :
    (dataTypeCheck (.i 5) 2 = true ∧
      c9Param.setData (.i 5) = .ok { c9Param with data := .i 5 } ∧
      (getTypeFromData (.i 5) = .ok 2 ∨
        (getTypeFromData (.i 5) = .ok 1 ∧ (2 : Int) = 2))) ∨
    (dataTypeCheck (.i 5) 2 = false ∧
      c9Param.setData (.i 5) = .error .valueError) :=
  claim_c9_amended_setData c9Param 2 (.i 5) rfl

theorem bulkF32_take (data : List Nat) (pos n : Nat) :
    bulkF32 n ((data.drop pos).take (4 * n)) =
      (List.range n).map (fun (i : Nat) =>
        .f (f32FromBits (leNat ((data.drop (pos + 4 * i)).take 4)))) := by
  unfold bulkF32
  apply List.map_congr_left
  intro i hi
  rw [List.mem_range] at hi
  have h1 : ((data.drop pos).take (4 * n)).drop (4 * i)
      = ((data.drop pos).drop (4 * i)).take (4 * n - 4 * i) :=
    List.drop_take (4 * n) (4 * i) (data.drop pos)
  rw [h1, List.drop_drop, List.take_take,
    Nat.min_eq_left (by omega)]

theorem bulkI16_take (data : List Nat) (pos n : Nat) :
    bulkI16 n ((data.drop pos).take (2 * n)) =
      (List.range n).map (fun (i : Nat) =>
        .i (toSigned 16 (leNat ((data.drop (pos + 2 * i)).take 2)))) := by
  unfold bulkI16
  apply List.map_congr_left
  intro i hi
  rw [List.mem_range] at hi
  have h1 : ((data.drop pos).take (2 * n)).drop (2 * i)
      = ((data.drop pos).drop (2 * i)).take (2 * n - 2 * i) :=
    List.drop_take (2 * n) (2 * i) (data.drop pos)
  rw [h1, List.drop_drop, List.take_take,
    Nat.min_eq_left (by omega)]

theorem mapM_map_pyMul_float (x : PyFloat) (g : Nat → Int) (ns : List Nat) :
    (ns.map (fun (i : Nat) => PyVal.i (g i))).mapM
        (fun value => pyMul value (.f x)) =
      .ok (ns.map (fun (i : Nat) => PyVal.f (x.mulInt (g i)))) := by
  induction ns with
  | nil => rfl
  | cons a t ih =>
    rw [List.map_cons, List.mapM_cons, ih]
    rfl

theorem bulkReadFloat_eq (r : Reader) (n : Int) (hn : 0 ≤ n)
    (hbytes : r.pos + 4 * n.toNat ≤ r.data.length) :
    r.bulkReadFloat n =
      (.ok ((List.range n.toNat).map (fun (i : Nat) =>
          .f (f32FromBits (leNat ((r.data.drop (r.pos + 4 * i)).take 4))))),
        { r with pos := r.pos + 4 * n.toNat }) := by
  have hsz : (DataType.FLOAT.size : Int) = 4 := rfl
  have hmul4 : ((DataType.FLOAT.size : Int) * n).toNat = 4 * n.toNat := by
    rw [hsz]; omega
  unfold Reader.bulkReadFloat Reader.readBytes
  rw [if_neg (by omega)]
  rw [if_neg (by rw [hsz]; omega : ¬ ((DataType.FLOAT.size : Int) * n < 0))]
  simp only [hmul4]
  have hlen : ((r.data.drop r.pos).take (4 * n.toNat)).length
      = 4 * n.toNat := by
    rw [List.length_take, List.length_drop]
    omega
  rw [if_pos hlen]
  rw [hlen, bulkF32_take]

theorem bulkReadInt_eq (r : Reader) (n : Int) (hn : 0 ≤ n)
    (hbytes : r.pos + 2 * n.toNat ≤ r.data.length) :
    r.bulkReadInt n =
      (.ok ((List.range n.toNat).map (fun (i : Nat) =>
          .i (toSigned 16 (leNat ((r.data.drop (r.pos + 2 * i)).take 2))))),
        { r with pos := r.pos + 2 * n.toNat }) := by
  have hsz : (DataType.INT.size : Int) = 2 := rfl
  have hmul2 : ((DataType.INT.size : Int) * n).toNat = 2 * n.toNat := by
    rw [hsz]; omega
  unfold Reader.bulkReadInt Reader.readBytes
  rw [if_neg (by omega)]
  rw [if_neg (by rw [hsz]; omega : ¬ ((DataType.INT.size : Int) * n < 0))]
  simp only [hmul2]
  have hlen : ((r.data.drop r.pos).take (2 * n.toNat)).length
      = 2 * n.toNat := by
    rw [List.length_take, List.length_drop]
    omega
  rw [if_pos hlen]
  rw [hlen, bulkI16_take]

/-- Claim C6: the sample region reads exactly
`(lastFrame - firstFrame) * markerCount * 4` samples; with a negative
POINT SCALE they are bulk-read as little-endian float32 values whose
decoding does not depend on the configured processor type, and
otherwise the same count of little-endian int16 values is bulk-read and
each is multiplied by the scale to give the float samples.  (These are
the two reader calls and the comprehension that `_readMarkers` performs
with `n = numberOfDataPoints`.) -/
theorem claim_c6_sample_region (r : Reader) (h : Header) (mc : Int)
    (x : PyFloat)
    (hn : 0 ≤ numberOfDataPoints h mc)
    (hbytes : r.pos + 4 * (numberOfDataPoints h mc).toNat ≤ r.data.length) :
    numberOfDataPoints h mc = (h.lastFrame - h.firstFrame) * mc * 4 ∧
    (x.isNeg = true → pyLtZero (.f x) = .ok true ∧
      r.bulkReadFloat (numberOfDataPoints h mc) =
        (.ok ((List.range (numberOfDataPoints h mc).toNat).map (fun (i : Nat) =>
            .f (f32FromBits (leNat ((r.data.drop (r.pos + 4 * i)).take 4))))),
          { r with pos := r.pos + 4 * (numberOfDataPoints h mc).toNat }) ∧
      (∀ p, (Reader.bulkReadFloat { r with proc := p }
          (numberOfDataPoints h mc)).1 =
        (r.bulkReadFloat (numberOfDataPoints h mc)).1)) ∧
    (x.isNeg = false → pyLtZero (.f x) = .ok false ∧
      r.bulkReadInt (numberOfDataPoints h mc) =
        (.ok ((List.range (numberOfDataPoints h mc).toNat).map (fun (i : Nat) =>
            .i (toSigned 16 (leNat ((r.data.drop (r.pos + 2 * i)).take 2))))),
          { r with pos := r.pos + 2 * (numberOfDataPoints h mc).toNat }) ∧
      ((List.range (numberOfDataPoints h mc).toNat).map (fun (i : Nat) =>
          PyVal.i (toSigned 16 (leNat ((r.data.drop (r.pos + 2 * i)).take 2))))).mapM
          (fun value => pyMul value (.f x)) =
        .ok ((List.range (numberOfDataPoints h mc).toNat).map (fun (i : Nat) =>
          PyVal.f (x.mulInt
            (toSigned 16 (leNat ((r.data.drop (r.pos + 2 * i)).take 2))))))) := by
  refine ⟨by unfold numberOfDataPoints; ring, fun hneg => ⟨?_, ?_, ?_⟩,
    fun hpos => ⟨?_, ?_, ?_⟩⟩
  · simp [pyLtZero, hneg]
  · exact bulkReadFloat_eq r (numberOfDataPoints h mc) hn hbytes
  · intro p
    rw [bulkReadFloat_eq r (numberOfDataPoints h mc) hn hbytes,
      bulkReadFloat_eq { r with proc := p } (numberOfDataPoints h mc) hn hbytes]
  · simp [pyLtZero, hpos]
  · exact bulkReadInt_eq r (numberOfDataPoints h mc) hn (by omega)
  · exact mapM_map_pyMul_float x _ _

/-- Claim C6 witness: the sample-region theorem applied at a concrete
16-byte reader, one marker and scale -1.0, with both hypotheses
evaluated. -/
theorem claim_c6_witness :
    (0 : Int) ≤ numberOfDataPoints c6Header 1 ∧
    c6Reader.pos + 4 * (numberOfDataPoints c6Header 1).toNat
      ≤ c6Reader.data.length ∧
    (numberOfDataPoints c6Header 1 =
      (c6Header.lastFrame - c6Header.firstFrame) * 1 * 4 ∧
    ((PyFloat.fin (-1)).isNeg = true →
      pyLtZero (.f (.fin (-1))) = .ok true ∧
      c6Reader.bulkReadFloat (numberOfDataPoints c6Header 1) =
        (.ok ((List.range (numberOfDataPoints c6Header 1).toNat).map
            (fun (i : Nat) => .f (f32FromBits
              (leNat ((c6Reader.data.drop (c6Reader.pos + 4 * i)).take 4))))),
          { c6Reader with
            pos := c6Reader.pos + 4 * (numberOfDataPoints c6Header 1).toNat }) ∧
      (∀ p, (Reader.bulkReadFloat { c6Reader with proc := p }
          (numberOfDataPoints c6Header 1)).1 =
        (c6Reader.bulkReadFloat (numberOfDataPoints c6Header 1)).1)) ∧
    ((PyFloat.fin (-1)).isNeg = false →
      pyLtZero (.f (.fin (-1))) = .ok false ∧
      c6Reader.bulkReadInt (numberOfDataPoints c6Header 1) =
        (.ok ((List.range (numberOfDataPoints c6Header 1).toNat).map
            (fun (i : Nat) => .i (toSigned 16
              (leNat ((c6Reader.data.drop (c6Reader.pos + 2 * i)).take 2))))),
          { c6Reader with
            pos := c6Reader.pos + 2 * (numberOfDataPoints c6Header 1).toNat }) ∧
      ((List.range (numberOfDataPoints c6Header 1).toNat).map (fun (i : Nat) =>
          PyVal.i (toSigned 16
            (leNat ((c6Reader.data.drop (c6Reader.pos + 2 * i)).take 2))))).mapM
          (fun value => pyMul value (.f (.fin (-1)))) =
        .ok ((List.range (numberOfDataPoints c6Header 1).toNat).map
          (fun (i : Nat) => PyVal.f ((PyFloat.fin (-1)).mulInt
            (toSigned 16
              (leNat ((c6Reader.data.drop (c6Reader.pos + 2 * i)).take 2)))))))) :=
  ⟨by decide, by decide,
    claim_c6_sample_region c6Reader c6Header 1 (.fin (-1))
      (by decide) (by decide)⟩

theorem PyM_bind_apply (x : PyM α) (f : α → PyM β) (s : LoadState) :
    (x >>= f) s = match x s with
      | (.ok a, s2) => f a s2
      | (.error e, s2) => (.error e, s2) := rfl

theorem PyM_pure_apply (a : α) (s : LoadState) :
    (pure a : PyM α) s = (.ok a, s) := rfl

theorem advanceReader_reader_pos (s : LoadState) (k : Nat) :
    (advanceReader s k).reader.pos = s.reader.pos + k := rfl

theorem advanceReader_reader_data (s : LoadState) (k : Nat) :
    (advanceReader s k).reader.data = s.reader.data := rfl

theorem advanceReader_advanceReader (s : LoadState) (k j : Nat) :
    advanceReader (advanceReader s k) j = advanceReader s (k + j) := by
  unfold advanceReader
  simp [Nat.add_assoc]

theorem stringArrayIter (value : List PyVal) (size : Int) (hsize : 0 ≤ size)
    (s : LoadState)
    (hb : s.reader.pos + size.toNat ≤ s.reader.data.length) :
    (tryCatchP
      (do
        let str ← liftR (·.readStringFromByte size)
        pure (value ++ [PyVal.s (pyStrip str)]))
      (fun _ => pure [PyVal.s (cp "UNABLE TO READ VALUE")])) s =
    (.ok (match utf8Decode ((s.reader.data.drop s.reader.pos).take size.toNat)
        with
      | .ok str => value ++ [PyVal.s (pyStrip str)]
      | .error _ => [PyVal.s (cp "UNABLE TO READ VALUE")]),
      advanceReader s size.toNat) := by
  have hlen : ((s.reader.data.drop s.reader.pos).take size.toNat).length
      = size.toNat := by
    rw [List.length_take, List.length_drop]
    omega
  have hneg : ¬ (size < 0) := by omega
  unfold tryCatchP advanceReader
  rw [PyM_bind_apply]
  simp only [liftR, Reader.readStringFromByte, Reader.readBytes,
    if_neg hneg, hlen]
  cases utf8Decode ((s.reader.data.drop s.reader.pos).take size.toNat) with
  | ok str => rfl
  | error e => rfl

theorem stringArrayLoop_run (size : Int) (hsize : 0 ≤ size) :
    ∀ (n : Nat) (value : List PyVal) (s : LoadState),
      s.reader.pos + size.toNat * n ≤ s.reader.data.length →
      stringArrayLoop value size n s =
        (.ok (stringArrayResult value (chunkOutcomes s.reader size.toNat n)),
          advanceReader s (size.toNat * n)) := by
  intro n
  induction n with
  | zero =>
    intro value s hb
    show (pure value : PyM (List PyVal)) s = _
    rw [PyM_pure_apply]
    unfold advanceReader
    rfl
  | succ n ih =>
    intro value s hb
    have hmul : size.toNat * (n + 1) = size.toNat * n + size.toNat := by ring
    rw [hmul] at hb
    show ((tryCatchP
        (do
          let str ← liftR (·.readStringFromByte size)
          pure (value ++ [PyVal.s (pyStrip str)]))
        (fun _ => pure [PyVal.s (cp "UNABLE TO READ VALUE")])) >>=
      (fun value2 => stringArrayLoop value2 size n)) s = _
    rw [PyM_bind_apply, stringArrayIter value size hsize s (by omega)]
    have hchunks : chunkOutcomes s.reader size.toNat (n + 1) =
        utf8Decode ((s.reader.data.drop s.reader.pos).take size.toNat) ::
        chunkOutcomes (advanceReader s size.toNat).reader size.toNat n := by
      unfold chunkOutcomes
      rw [List.range_succ_eq_map, List.map_cons, List.map_map]
      simp only [Nat.mul_zero, Nat.add_zero]
      congr 1
      apply List.map_congr_left
      intro i _
      simp only [Function.comp, advanceReader_reader_pos,
        advanceReader_reader_data]
      have harith : s.reader.pos + size.toNat * i.succ
          = s.reader.pos + size.toNat + size.toNat * i := by
        rw [Nat.succ_eq_add_one]
        ring
      rw [harith]
    rw [hchunks]
    have hbs : (advanceReader s size.toNat).reader.pos + size.toNat * n
        ≤ (advanceReader s size.toNat).reader.data.length := by
      rw [advanceReader_reader_pos, advanceReader_reader_data]
      omega
    cases utf8Decode ((s.reader.data.drop s.reader.pos).take size.toNat) with
    | ok str =>
      show stringArrayLoop (value ++ [PyVal.s (pyStrip str)]) size n
        (advanceReader s size.toNat) = _
      rw [ih (value ++ [PyVal.s (pyStrip str)]) (advanceReader s size.toNat)
        hbs]
      rw [advanceReader_advanceReader]
      have hadd : size.toNat + size.toNat * n = size.toNat * (n + 1) := by ring
      rw [hadd]
      rfl
    | error e =>
      show stringArrayLoop [PyVal.s (cp "UNABLE TO READ VALUE")] size n
        (advanceReader s size.toNat) = _
      rw [ih [PyVal.s (cp "UNABLE TO READ VALUE")] (advanceReader s size.toNat)
        hbs]
      rw [advanceReader_advanceReader]
      have hadd : size.toNat + size.toNat * n = size.toNat * (n + 1) := by ring
      rw [hadd]
      rfl

theorem stringArrayResult_all_ok (value : List PyVal)
    (strs : List (List Nat)) :
    stringArrayResult value (strs.map Except.ok) =
      value ++ strs.map (fun str => PyVal.s (pyStrip str)) := by
  induction strs generalizing value with
  | nil => simp [stringArrayResult]
  | cons a t ih =>
    rw [List.map_cons]
    show stringArrayResult (value ++ [PyVal.s (pyStrip a)]) (t.map Except.ok) = _
    rw [ih]
    simp

theorem stringArrayResult_sentinel (value : List PyVal)
    (outs1 : List (Except PyErr (List Nat))) (e : PyErr)
    (strs : List (List Nat)) :
    stringArrayResult value (outs1 ++ .error e :: strs.map Except.ok) =
      PyVal.s (cp "UNABLE TO READ VALUE") ::
        strs.map (fun str => PyVal.s (pyStrip str)) := by
  induction outs1 generalizing value with
  | nil =>
    rw [List.nil_append]
    show stringArrayResult [PyVal.s (cp "UNABLE TO READ VALUE")]
      (strs.map Except.ok) = _
    rw [stringArrayResult_all_ok]
    rfl
  | cons o t ih =>
    cases o with
    | ok str =>
      rw [List.cons_append]
      show stringArrayResult (value ++ [PyVal.s (pyStrip str)])
        (t ++ .error e :: strs.map Except.ok) = _
      exact ih _
    | error e2 =>
      rw [List.cons_append]
      show stringArrayResult [PyVal.s (cp "UNABLE TO READ VALUE")]
        (t ++ .error e :: strs.map Except.ok) = _
      exact ih _

/-- Claim C4, counterexample: when the first of two strings fails to
decode and the second succeeds, the stored value is the sentinel
followed by the second string — two elements, not the one-element
sentinel sequence the claim asserts.  The failure is still not
surfaced (the record parses as `ok true`) and the walker reads the next
record (here the terminator) correctly. -/
theorem claim_c4_counterexample :
    (readParamBlock c4State).1 = .ok true ∧
    ((c4Out.parameters.get? 0).map (fun g => g.parameters.map Parameter.data))
      = some [PyVal.lst [PyVal.s (cp "UNABLE TO READ VALUE"), PyVal.s [66]]] ∧
    PyVal.lst [PyVal.s (cp "UNABLE TO READ VALUE"), PyVal.s [66]] ≠
      PyVal.lst [PyVal.s (cp "UNABLE TO READ VALUE")] ∧
    (readParamBlock c4Out).1 = .ok false := by
  refine ⟨by decide, by decide, by decide, by decide⟩

/-- Claim C4 (amended): in the fixed-width string-array loop, each
iteration reads one chunk; a decode failure is caught locally and
replaces the accumulated value with the one-element sentinel sequence,
after which the loop continues, appending any subsequently decoded
strings after the sentinel — so when the failure is not on the last
element the final value has the sentinel followed by the later strings.
The loop itself always returns `ok` (the failure is never surfaced) and
leaves the cursor where sequential consumption puts it, so the walker
continues with the next record. -/
theorem claim_c4_amended_sentinel :
    (∀ (size : Int), 0 ≤ size →
      ∀ (n : Nat) (value : List PyVal) (s : LoadState),
      s.reader.pos + size.toNat * n ≤ s.reader.data.length →
      stringArrayLoop value size n s =
        (.ok (stringArrayResult value (chunkOutcomes s.reader size.toNat n)),
          advanceReader s (size.toNat * n))) ∧
    (∀ (value : List PyVal) (outs1 : List (Except PyErr (List Nat)))
      (e : PyErr) (strs : List (List Nat)),
      stringArrayResult value (outs1 ++ .error e :: strs.map Except.ok) =
        PyVal.s (cp "UNABLE TO READ VALUE") ::
          strs.map (fun str => PyVal.s (pyStrip str))) :=
  ⟨fun size hsize => stringArrayLoop_run size hsize,
    stringArrayResult_sentinel⟩

/-- Claim C4 witness: the amended theorem applied to a concrete
two-element loop whose first chunk fails, and to the outcome list with
the failure first and one surviving string. -/
theorem claim_c4_amended_witness :
    stringArrayLoop [] 1 2 c4WitState =
      (.ok (stringArrayResult [] (chunkOutcomes c4WitState.reader
          (1 : Int).toNat 2)),
        advanceReader c4WitState ((1 : Int).toNat * 2)) ∧
    stringArrayResult [] ([] ++ .error .unicodeError :: [[66]].map Except.ok) =
      PyVal.s (cp "UNABLE TO READ VALUE") ::
        [[66]].map (fun str => PyVal.s (pyStrip str)) :=
  ⟨claim_c4_amended_sentinel.1 1 (by decide) 2 [] c4WitState (by decide),
    claim_c4_amended_sentinel.2 [] [] .unicodeError [[66]]⟩

/-- In the parameter branch, a successful `readParamTail` always leaves
the cursor at `currentFilePos + bytesToNextGroup` (the final seek of
`_readParamBlock`), whatever the value decoding consumed. -/
theorem readParamTail_pos (gIdx : Nat) (name : List Nat) (curPos : Nat)
    (btn : Int) (s s2 : LoadState)
    (h : readParamTail gIdx name curPos btn s = (.ok true, s2)) :
    (s2.reader.pos : Int) = (curPos : Int) + btn := by
  unfold readParamTail at h
  simp only [PyM_bind_apply, PyM_pure_apply, modifyS] at h
  split at h
  rotate_left
  · simp at h
  split at h
  rotate_left
  · simp at h
  split at h
  rotate_left
  · simp at h
  split at h
  rotate_left
  · simp at h
  split at h
  rotate_left
  · simp at h
  split at h
  rotate_left
  · simp at h
  rename_i heqseek
  simp only [liftR, Reader.seek] at heqseek
  split at heqseek
  · simp at heqseek
  · rename_i hnneg
    have hst := congrArg Prod.snd h
    have hst2 := congrArg Prod.snd heqseek
    simp only at hst hst2
    rw [← hst, ← hst2]
    simp only []
    omega

/-- Shift a cursor-decomposition fact of the file bytes by `k`. -/
theorem drop_shift (data : List Nat) (pos k : Nat) (l : List Nat)
    (h : data.drop pos = l) : data.drop (pos + k) = l.drop k := by
  rw [← h, ← List.drop_drop]

/-- Running `readByte` when the next byte is `b`. -/
theorem liftR_readByte_eq (s : LoadState) (b : Nat) (rest : List Nat)
    (hb : s.reader.data.drop s.reader.pos = b :: rest) :
    liftR (fun x => x.readByte) s = (.ok (toSigned 8 b), advanceReader s 1) := by
  simp only [liftR, Reader.readByte, Reader.readBytes, advanceReader]
  rw [if_neg (by omega : ¬ ((1 : Int) < 0))]
  simp only [hb, Int.toNat_one, List.take_succ_cons, List.take_zero,
    List.length_cons, List.length_nil]

/-- Running `readStringFromByte` with enough bytes available. -/
theorem liftR_readString_eq (s : LoadState) (length : Int) (h0 : 0 ≤ length)
    (hlen : length.toNat ≤ (s.reader.data.drop s.reader.pos).length) :
    liftR (fun x => x.readStringFromByte length) s =
      (utf8Decode ((s.reader.data.drop s.reader.pos).take length.toNat),
        advanceReader s length.toNat) := by
  have hl : ((s.reader.data.drop s.reader.pos).take length.toNat).length
      = length.toNat := by
    rw [List.length_take]
    omega
  simp only [liftR, Reader.readStringFromByte, Reader.readBytes, advanceReader]
  rw [if_neg (by omega : ¬ (length < 0))]
  rw [hl]

/-- Running `readInt` with two bytes available. -/
theorem liftR_readInt_eq (s : LoadState)
    (hlen : 2 ≤ (s.reader.data.drop s.reader.pos).length) :
    liftR (fun x => x.readInt) s =
      ((match readBasedOnProcessorType ((s.reader.data.drop s.reader.pos).take 2)
          .INT s.reader.proc with
        | .ok (.i n) => .ok n
        | .error e => .error e
        | .ok _ => .error .typeError),
        advanceReader s 2) := by
  have h2 : ((2 : Int)).toNat = 2 := rfl
  have hl : ((s.reader.data.drop s.reader.pos).take 2).length = 2 := by
    rw [List.length_take]
    omega
  simp only [liftR, Reader.readInt, Reader.readBytes, advanceReader, h2]
  rw [if_neg (by omega : ¬ ((2 : Int) < 0))]
  rw [hl]
  cases hm : readBasedOnProcessorType
      ((s.reader.data.drop s.reader.pos).take 2) .INT s.reader.proc with
  | ok v => cases v <;> rfl
  | error e => rfl

theorem advanceReader_parameters (s : LoadState) (k : Nat) :
    (advanceReader s k).parameters = s.parameters := rfl

theorem advanceReader_reader_proc (s : LoadState) (k : Nat) :
    (advanceReader s k).reader.proc = s.reader.proc := rfl

/-- Claim C3 (amended): only for parameter records (branch 6) does the
walker seek to `recordStart + bytesToNext` before the next loop
iteration: whenever `_readParamBlock` starts on a record whose group id
already exists (bytes `b0` = name length, `b1` = group id, with the
name and offset bytes present) and returns `True`, the cursor ends at
`recordStart + bytesToNext`, where `recordStart` is the position after
the name and `bytesToNext` is the 16-bit integer read there.  For
group-header records (branch 5) no such seek happens — the
counterexample shows the cursor simply continues after the description. -/
theorem claim_c3_amended (s s2 : LoadState) (b0 b1 : Nat) (tail : List Nat)
    (gIdx : Nat)
    (hbytes : s.reader.data.drop s.reader.pos = b0 :: b1 :: tail)
    (hbtn : (toSigned 8 b0).natAbs + 2 ≤ tail.length)
    (hgrp : getParameterByGroupIdx s.parameters (toSigned 8 b1) = some gIdx)
    (hrun : readParamBlock s = (.ok true, s2)) :
    (s2.reader.pos : Int) =
      ((s.reader.pos + 2 + (toSigned 8 b0).natAbs : Nat) : Int) +
        intAt s.reader (s.reader.pos + 2 + (toSigned 8 b0).natAbs) := by
  unfold readParamBlock at hrun
  simp only [PyM_bind_apply] at hrun
  split at hrun
  rotate_left
  · rename_i heq
    rw [liftR_readByte_eq s b0 (b1 :: tail) hbytes] at heq
    simp at heq
  rename_i a s1 heq
  rw [liftR_readByte_eq s b0 (b1 :: tail) hbytes] at heq
  rw [Prod.mk.injEq] at heq
  obtain ⟨h1, h2⟩ := heq
  have ha := Except.ok.inj h1
  subst ha
  subst h2
  have hd1 : (advanceReader s 1).reader.data.drop (advanceReader s 1).reader.pos
      = b1 :: tail := by
    rw [advanceReader_reader_data, advanceReader_reader_pos]
    have h3 := drop_shift s.reader.data s.reader.pos 1 _ hbytes
    simpa using h3
  split at hrun
  · simp [PyM_pure_apply] at hrun
  simp only [PyM_bind_apply] at hrun
  split at hrun
  rotate_left
  · rename_i heq
    rw [liftR_readByte_eq _ b1 tail hd1] at heq
    simp at heq
  rename_i a2 s1 heq
  rw [liftR_readByte_eq _ b1 tail hd1] at heq
  rw [Prod.mk.injEq] at heq
  obtain ⟨h1b, h2b⟩ := heq
  have ha2 := Except.ok.inj h1b
  subst ha2
  subst h2b
  rw [advanceReader_advanceReader] at hrun
  have hd2 : (advanceReader s (1+1)).reader.data.drop
      (advanceReader s (1+1)).reader.pos = tail := by
    rw [advanceReader_reader_data, advanceReader_reader_pos]
    have h3 := drop_shift s.reader.data s.reader.pos 2 _ hbytes
    simpa using h3
  have hL0 : (0 : Int) ≤ ((toSigned 8 b0).natAbs : Int) := by omega
  have hLlen : (((toSigned 8 b0).natAbs : Int)).toNat ≤
      ((advanceReader s (1+1)).reader.data.drop
        (advanceReader s (1+1)).reader.pos).length := by
    rw [hd2]
    omega
  rw [liftR_readString_eq _ _ hL0 hLlen] at hrun
  rw [hd2] at hrun
  split at hrun
  rotate_left
  · simp at hrun
  rename_i a3 s3 heq3
  rw [Prod.mk.injEq] at heq3
  obtain ⟨h1c, h2c⟩ := heq3
  subst h2c
  rw [advanceReader_advanceReader] at hrun
  simp only [tellP] at hrun
  have hd3 : (advanceReader s (1 + 1 + (((toSigned 8 b0).natAbs : Int)).toNat)).reader.data.drop
      (advanceReader s (1 + 1 + (((toSigned 8 b0).natAbs : Int)).toNat)).reader.pos
      = tail.drop (((toSigned 8 b0).natAbs : Int)).toNat := by
    rw [advanceReader_reader_data, advanceReader_reader_pos]
    have h3 := drop_shift s.reader.data s.reader.pos
      (1 + 1 + (((toSigned 8 b0).natAbs : Int)).toNat) _ hbytes
    rw [h3]
    have h4 : 1 + 1 + (((toSigned 8 b0).natAbs : Int)).toNat
        = (((toSigned 8 b0).natAbs : Int)).toNat + 1 + 1 := by omega
    rw [h4]
    simp [List.drop_succ_cons]
  have hlen2 : 2 ≤ ((advanceReader s (1 + 1 + (((toSigned 8 b0).natAbs : Int)).toNat)).reader.data.drop
      (advanceReader s (1 + 1 + (((toSigned 8 b0).natAbs : Int)).toNat)).reader.pos).length := by
    rw [hd3, List.length_drop]
    omega
  rw [liftR_readInt_eq _ hlen2] at hrun
  split at hrun
  rotate_left
  · simp at hrun
  rename_i a4 s4 heq4
  rw [Prod.mk.injEq] at heq4
  obtain ⟨h1d, h2d⟩ := heq4
  subst h2d
  split at h1d
  rotate_left
  · simp at h1d
  · simp at h1d
  rename_i n heq5
  have ha4 := Except.ok.inj h1d
  subst ha4
  rw [advanceReader_advanceReader] at hrun
  split at hrun
  · simp [PyM_pure_apply] at hrun
  simp only [PyM_bind_apply, getS, advanceReader_parameters, hgrp] at hrun
  have hfin := readParamTail_pos _ _ _ _ _ _ hrun
  simp only [Reader.tell, advanceReader_reader_pos] at hfin
  rw [advanceReader_reader_pos, advanceReader_reader_data,
    advanceReader_reader_proc] at heq5
  have hidx : s.reader.pos + (1 + 1 + (((toSigned 8 b0).natAbs : Int)).toNat)
      = s.reader.pos + 2 + (toSigned 8 b0).natAbs := by omega
  rw [hidx] at heq5
  have hint : intAt s.reader (s.reader.pos + 2 + (toSigned 8 b0).natAbs) = n := by
    unfold intAt
    rw [heq5]
  rw [hint]
  omega

/-- Claim C3, counterexample: processing the group-header record
succeeds (branch 5, a new group is created), but the walker does NOT
seek to `recordStart + bytesToNext` = 7 + 10 = 17: it continues
sequentially right after the description, at position 10. -/
theorem claim_c3_counterexample :
    (readParamBlock c3State).1 = .ok true ∧
    (readParamBlock c3State).2.parameters.length = 1 ∧
    (readParamBlock c3State).2.reader.pos = 10 ∧
    ¬ ((readParamBlock c3State).2.reader.pos = 7 + 10) := by
  refine ⟨by decide, by decide, by decide, by decide⟩

/-- Claim C3 witness: the amended theorem applied to the concrete
parameter record, with all hypotheses discharged; the cursor ends at
`recordStart + bytesToNext` = 6 + 8 = 14. -/
theorem claim_c3_witness :
    (c3ParamOut.reader.pos : Int) =
      ((c3ParamState.reader.pos + 2 + (toSigned 8 4).natAbs : Nat) : Int) +
        intAt c3ParamState.reader
          (c3ParamState.reader.pos + 2 + (toSigned 8 4).natAbs) :=
  claim_c3_amended c3ParamState c3ParamOut 4 1
    [76, 66, 76, 83, 8, 0, 4, 0, 0, 0, 128, 191, 0] 0
    (by decide) (by decide) (by decide) (by rfl)

theorem tH : readHeader (initialState c1File) = (.ok (), sHlit) := by rfl

theorem tP0 : readParamPrologue sHlit = (.ok (), sP0lit) := by rfl

theorem tP1 : readParamBlock sP0lit = (.ok true, sP1lit) := by rfl

theorem tP2 : readParamBlock sP1lit = (.ok true, sP2lit) := by rfl

theorem tP3 : readParamBlock sP2lit = (.ok true, sP3lit) := by rfl

theorem tP4 : readParamBlock sP3lit = (.ok false, sP4lit) := by rfl

theorem readParamLoop_step_true (n : Nat) (s s2 : LoadState)
    (h : readParamBlock s = (.ok true, s2)) :
    readParamLoop (n + 1) s = readParamLoop n s2 := by
  show (readParamBlock >>= fun cont =>
      if cont then readParamLoop n else pure ()) s = _
  rw [PyM_bind_apply, h]
  rfl

theorem readParamLoop_step_false (n : Nat) (s s2 : LoadState)
    (h : readParamBlock s = (.ok false, s2)) :
    readParamLoop (n + 1) s = (.ok (), s2) := by
  show (readParamBlock >>= fun cont =>
      if cont then readParamLoop n else pure ()) s = _
  rw [PyM_bind_apply, h]
  rfl

theorem tLoop : readParamLoop 1089 sP0lit = (.ok (), sP4lit) := by
  rw [show (1089 : Nat) = 1088 + 1 from rfl,
    readParamLoop_step_true 1088 _ _ tP1,
    show (1088 : Nat) = 1087 + 1 from rfl,
    readParamLoop_step_true 1087 _ _ tP2,
    show (1087 : Nat) = 1086 + 1 from rfl,
    readParamLoop_step_true 1086 _ _ tP3,
    show (1086 : Nat) = 1085 + 1 from rfl,
    readParamLoop_step_false 1085 _ _ tP4]

theorem tParams : readParameters 1089 sHlit = (.ok (), sP4lit) := by
  show (readParamPrologue >>= fun _ => readParamLoop 1089) sHlit = _
  rw [PyM_bind_apply, tP0]
  exact tLoop

theorem tMarkers : readMarkers sP4lit = (.ok (), sFinLit) := by
  with_unfolding_all rfl

theorem loadFile_run (bs : List Nat) (s1 s2 : LoadState)
    (hh : readHeader (initialState bs) = (.ok (), s1))
    (hp : readParameters (bs.length + 1) s1 = (.ok (), s2)) :
    loadFile bs = readMarkers s2 := by
  unfold loadFile
  rw [PyM_bind_apply, hh]
  show (readParameters (bs.length + 1) >>= fun _ => readMarkers) s1 = _
  rw [PyM_bind_apply, hp]

theorem tLen : c1File.length + 1 = 1089 := by rfl

theorem tLoad : loadFile c1File = (.ok (), sFinLit) := by
  rw [loadFile_run c1File sHlit sP4lit tH (by rw [tLen]; exact tParams)]
  exact tMarkers

theorem rbopt_int_eq (b0 b1 : Nat) (p : Option ProcessorType) :
    readBasedOnProcessorType [b0, b1] .INT p =
      .ok (.i (intOfBytes [b0, b1] p)) := by
  cases p with
  | none => rfl
  | some pt => cases pt <;> rfl

theorem rbopt_float_eq (b0 b1 b2 b3 : Nat) (p : Option ProcessorType) :
    readBasedOnProcessorType [b0, b1, b2, b3] .FLOAT p =
      .ok (.f (floatOfBytes [b0, b1, b2, b3] p)) := by
  cases p with
  | none => rfl
  | some pt => cases pt <;> rfl

theorem liftR_readFloat_eq (s : LoadState)
    (hlen : 4 ≤ (s.reader.data.drop s.reader.pos).length) :
    liftR (fun x => x.readFloat) s =
      ((match readBasedOnProcessorType ((s.reader.data.drop s.reader.pos).take 4)
          .FLOAT s.reader.proc with
        | .ok (.f x) => .ok x
        | .error e => .error e
        | .ok _ => .error .typeError),
        advanceReader s 4) := by
  have h4 : ((4 : Int)).toNat = 4 := rfl
  have hl : ((s.reader.data.drop s.reader.pos).take 4).length = 4 := by
    rw [List.length_take]
    omega
  simp only [liftR, Reader.readFloat, Reader.readBytes, advanceReader, h4]
  rw [if_neg (by omega : ¬ ((4 : Int) < 0))]
  rw [hl]
  cases hm : readBasedOnProcessorType
      ((s.reader.data.drop s.reader.pos).take 4) .FLOAT s.reader.proc with
  | ok v => cases v <;> rfl
  | error e => rfl

theorem PyM_run_bind {α β : Type} (x : PyM α) (f : α → PyM β)
    (s s1 s2 : LoadState) (a : α) (r : Except PyErr β)
    (hx : x s = (.ok a, s1)) (hf : f a s1 = (r, s2)) :
    (x >>= f) s = (r, s2) := by
  rw [PyM_bind_apply, hx]
  exact hf

theorem readIntHeaderField_run (set : Int → Header → Header) (s : LoadState)
    (b0 b1 : Nat) (rest : List Nat)
    (hdrop : s.reader.data.drop s.reader.pos = b0 :: b1 :: rest) :
    readIntHeaderField set s =
      (.ok (), { advanceReader s 2 with
        header := set (intOfBytes [b0, b1] s.reader.proc) s.header }) := by
  show (liftR (fun x => x.readInt) >>= fun v => setHeader (set v)) s = _
  rw [PyM_bind_apply, liftR_readInt_eq s (by rw [hdrop]; simp)]
  have ht : (s.reader.data.drop s.reader.pos).take 2 = [b0, b1] := by
    rw [hdrop]
    rfl
  rw [ht, rbopt_int_eq]
  rfl

theorem readFloatHeaderField_run (set : PyFloat → Header → Header)
    (s : LoadState) (b0 b1 b2 b3 : Nat) (rest : List Nat)
    (hdrop : s.reader.data.drop s.reader.pos = b0 :: b1 :: b2 :: b3 :: rest) :
    readFloatHeaderField set s =
      (.ok (), { advanceReader s 4 with
        header := set (floatOfBytes [b0, b1, b2, b3] s.reader.proc) s.header }) := by
  show (liftR (fun x => x.readFloat) >>= fun v => setHeader (set v)) s = _
  rw [PyM_bind_apply, liftR_readFloat_eq s (by rw [hdrop]; simp)]
  have ht : (s.reader.data.drop s.reader.pos).take 4 = [b0, b1, b2, b3] := by
    rw [hdrop]
    rfl
  rw [ht, rbopt_float_eq]
  rfl

theorem readHeaderWords_run (s : LoadState)
    (b2 b3 b4 b5 b6 b7 b8 b9 b10 b11 b12 b13 b14 b15 b16 b17 b18 b19 b20 b21 b22 b23 : Nat) (rest : List Nat)
    (hdrop : s.reader.data.drop s.reader.pos = b2 :: b3 :: b4 :: b5 :: b6 :: b7 :: b8 :: b9 :: b10 :: b11 :: b12 :: b13 :: b14 :: b15 :: b16 :: b17 :: b18 :: b19 :: b20 :: b21 :: b22 :: b23 :: rest) :
    readHeaderWords s = (.ok (),
      { advanceReader s 22 with header :=
        { s.header with
          markerCount := intOfBytes [b2, b3] s.reader.proc,
          analogMesasurements := intOfBytes [b4, b5] s.reader.proc,
          firstFrame := intOfBytes [b6, b7] s.reader.proc,
          lastFrame := intOfBytes [b8, b9] s.reader.proc,
          maxFrameGap := intOfBytes [b10, b11] s.reader.proc,
          scaleFactor := floatOfBytes [b12, b13, b14, b15] s.reader.proc,
          dataStart := intOfBytes [b16, b17] s.reader.proc,
          sampleRate := intOfBytes [b18, b19] s.reader.proc,
          frameRate := floatOfBytes [b20, b21, b22, b23] s.reader.proc } }) := by
  have hd2 : s.reader.data.drop (s.reader.pos + 2) = b4 :: b5 :: b6 :: b7 :: b8 :: b9 :: b10 :: b11 :: b12 :: b13 :: b14 :: b15 :: b16 :: b17 :: b18 :: b19 :: b20 :: b21 :: b22 :: b23 :: rest :=
    (drop_shift _ _ 2 _ hdrop).trans rfl
  have hd4 : s.reader.data.drop (s.reader.pos + 4) = b6 :: b7 :: b8 :: b9 :: b10 :: b11 :: b12 :: b13 :: b14 :: b15 :: b16 :: b17 :: b18 :: b19 :: b20 :: b21 :: b22 :: b23 :: rest :=
    (drop_shift _ _ 4 _ hdrop).trans rfl
  have hd6 : s.reader.data.drop (s.reader.pos + 6) = b8 :: b9 :: b10 :: b11 :: b12 :: b13 :: b14 :: b15 :: b16 :: b17 :: b18 :: b19 :: b20 :: b21 :: b22 :: b23 :: rest :=
    (drop_shift _ _ 6 _ hdrop).trans rfl
  have hd8 : s.reader.data.drop (s.reader.pos + 8) = b10 :: b11 :: b12 :: b13 :: b14 :: b15 :: b16 :: b17 :: b18 :: b19 :: b20 :: b21 :: b22 :: b23 :: rest :=
    (drop_shift _ _ 8 _ hdrop).trans rfl
  have hd10 : s.reader.data.drop (s.reader.pos + 10) = b12 :: b13 :: b14 :: b15 :: b16 :: b17 :: b18 :: b19 :: b20 :: b21 :: b22 :: b23 :: rest :=
    (drop_shift _ _ 10 _ hdrop).trans rfl
  have hd14 : s.reader.data.drop (s.reader.pos + 14) = b16 :: b17 :: b18 :: b19 :: b20 :: b21 :: b22 :: b23 :: rest :=
    (drop_shift _ _ 14 _ hdrop).trans rfl
  have hd16 : s.reader.data.drop (s.reader.pos + 16) = b18 :: b19 :: b20 :: b21 :: b22 :: b23 :: rest :=
    (drop_shift _ _ 16 _ hdrop).trans rfl
  have hd18 : s.reader.data.drop (s.reader.pos + 18) = b20 :: b21 :: b22 :: b23 :: rest :=
    (drop_shift _ _ 18 _ hdrop).trans rfl
  refine PyM_run_bind _ _ _ _ _ _ _ (readIntHeaderField_run _ _ b2 b3 _ hdrop) ?_
  refine PyM_run_bind _ _ _ _ _ _ _ (readIntHeaderField_run _ _ b4 b5 _ hd2) ?_
  refine PyM_run_bind _ _ _ _ _ _ _ (readIntHeaderField_run _ _ b6 b7 _ hd4) ?_
  refine PyM_run_bind _ _ _ _ _ _ _ (readIntHeaderField_run _ _ b8 b9 _ hd6) ?_
  refine PyM_run_bind _ _ _ _ _ _ _ (readIntHeaderField_run _ _ b10 b11 _ hd8) ?_
  refine PyM_run_bind _ _ _ _ _ _ _ (readFloatHeaderField_run _ _ b12 b13 b14 b15 _ hd10) ?_
  refine PyM_run_bind _ _ _ _ _ _ _ (readIntHeaderField_run _ _ b16 b17 _ hd14) ?_
  refine PyM_run_bind _ _ _ _ _ _ _ (readIntHeaderField_run _ _ b18 b19 _ hd16) ?_
  exact readFloatHeaderField_run _ _ b20 b21 b22 b23 _ hd18

/-- Claim C10: the word-decoding tail of the header read stores the
16-bit integer decoded from header word 10 (bytes 18-19 of the block)
in `sampleRate` and the 32-bit float decoded from words 11-12 (bytes
20-23) in `frameRate`; `getSampleRate` returns exactly that `frameRate`
float, so whenever the decoded float differs from the integer field,
`getSampleRate` differs from `Header.sampleRate`. -/
theorem claim_c10_sample_rate (s : LoadState)
    (b2 b3 b4 b5 b6 b7 b8 b9 b10 b11 b12 b13 b14 b15 b16 b17 b18 b19 b20 b21 b22 b23 : Nat) (rest : List Nat)
    (hdrop : s.reader.data.drop s.reader.pos = b2 :: b3 :: b4 :: b5 :: b6 :: b7 :: b8 :: b9 :: b10 :: b11 :: b12 :: b13 :: b14 :: b15 :: b16 :: b17 :: b18 :: b19 :: b20 :: b21 :: b22 :: b23 :: rest) :
    ∃ s2, readHeaderWords s = (.ok (), s2) ∧
      getSampleRate s2 = s2.header.frameRate ∧
      s2.header.sampleRate = intOfBytes [b18, b19] s.reader.proc ∧
      s2.header.frameRate = floatOfBytes [b20, b21, b22, b23] s.reader.proc ∧
      ∀ q : ℚ, s2.header.frameRate = .fin q →
        q ≠ (s2.header.sampleRate : ℚ) →
        getSampleRate s2 ≠ .fin ((s2.header.sampleRate : ℚ)) := by
  refine ⟨_, readHeaderWords_run s b2 b3 b4 b5 b6 b7 b8 b9 b10 b11 b12 b13 b14 b15 b16 b17 b18 b19 b20 b21 b22 b23 rest hdrop, rfl, rfl, rfl, ?_⟩
  intro q hq hne hcontra
  have h1 : floatOfBytes [b20, b21, b22, b23] s.reader.proc =
      PyFloat.fin ((intOfBytes [b18, b19] s.reader.proc : ℚ)) := hcontra
  have h2 : floatOfBytes [b20, b21, b22, b23] s.reader.proc =
      PyFloat.fin q := hq
  rw [h2] at h1
  exact hne (PyFloat.fin.inj h1)

/-- Claim C10 witness: the sample-rate theorem applied to a concrete
22-byte header word region whose integer word 10 decodes to 120 while
words 11-12 decode to the float 80.0. -/
theorem claim_c10_witness :
    ∃ s2, readHeaderWords c10State = (.ok (), s2) ∧
      getSampleRate s2 = s2.header.frameRate ∧
      s2.header.sampleRate = intOfBytes [120, 0] c10State.reader.proc ∧
      s2.header.frameRate = floatOfBytes [0, 0, 160, 66] c10State.reader.proc ∧
      ∀ q : ℚ, s2.header.frameRate = .fin q →
        q ≠ (s2.header.sampleRate : ℚ) →
        getSampleRate s2 ≠ .fin ((s2.header.sampleRate : ℚ)) :=
  claim_c10_sample_rate c10State 0 0 0 0 0 0 0 0 0 0 0 0 0 0 0 0 120 0 0 0
    160 66 [] (by rfl)

theorem t5H : readHeader (initialState c5File) = (.ok (), s5Hlit) := by rfl

theorem t5P0 : readParamPrologue s5Hlit = (.ok (), s5P0lit) := by rfl

theorem t5P1 : readParamBlock s5P0lit = (.ok true, s5P1lit) := by rfl

theorem t5P2 : readParamBlock s5P1lit = (.ok true, s5P2lit) := by rfl

theorem t5P3 : readParamBlock s5P2lit = (.ok true, s5P3lit) := by rfl

theorem t5P4 : readParamBlock s5P3lit = (.ok false, s5P4lit) := by rfl

theorem t5Loop : readParamLoop 1025 s5P0lit = (.ok (), s5P4lit) := by
  rw [show (1025 : Nat) = 1024 + 1 from rfl,
    readParamLoop_step_true 1024 _ _ t5P1,
    show (1024 : Nat) = 1023 + 1 from rfl,
    readParamLoop_step_true 1023 _ _ t5P2,
    show (1023 : Nat) = 1022 + 1 from rfl,
    readParamLoop_step_true 1022 _ _ t5P3,
    show (1022 : Nat) = 1021 + 1 from rfl,
    readParamLoop_step_false 1021 _ _ t5P4]

theorem t5Params : readParameters 1025 s5Hlit = (.ok (), s5P4lit) := by
  show (readParamPrologue >>= fun _ => readParamLoop 1025) s5Hlit = _
  rw [PyM_bind_apply, t5P0]
  exact t5Loop

theorem t5Markers : readMarkers s5P4lit = (.error .valueError, s5FinLit) := by
  rfl

theorem t5Len : c5File.length + 1 = 1025 := by rfl

theorem t5Load : loadFile c5File = (.error .valueError, s5FinLit) := by
  rw [loadFile_run c5File s5Hlit s5P4lit t5H (by rw [t5Len]; exact t5Params)]
  exact t5Markers

/-- Claim C1, behaviour of the code at the failing input: loading the
minimal synthetic file succeeds and `getMarkerCount` is 2, but
`readFrame 1` returns `[None, None]` instead of the two first-frame
input positions: only `(lastFrame - firstFrame) = 1` of the 2 frames is
read, and the markers' frame dictionaries are keyed by the 0-based
buffer index (the first-frame data sits under key 0, as the last
conjunct shows) while `readFrame` looks up the absolute frame number. -/
theorem claim_c1_end_to_end :
    (loadFile c1File).1 = .ok () ∧
    getMarkerCount c1State = 2 ∧
    readFrame c1State 1 = .ok [Option.none, Option.none] ∧
    readFrame c1State 2 = .ok [Option.none, Option.none] ∧
    c1State.markers.map (fun marker => marker.getPosition 0) =
      [some [PyVal.f (.fin 1), PyVal.f (.fin 2), PyVal.f (.fin 3),
          PyVal.f (.fin 0)],
        some [PyVal.f (.fin 4), PyVal.f (.fin 5), PyVal.f (.fin 6),
          PyVal.f (.fin 0)]] := by
  have hs : c1State = sFinLit := by
    unfold c1State
    rw [tLoad]
  refine ⟨by rw [tLoad], ?_, ?_, ?_, ?_⟩
  · rw [hs]
    rfl
  · rw [hs]
    rfl
  · rw [hs]
    rfl
  · rw [hs]
    with_unfolding_all rfl

/-- Claim C5, counterexample: the marker-count mismatch does surface as
a typed failure (ValueError), but the document is left partially
populated and usable: the two markers created from LABELS before the
check are still in the marker list, the POINT parameter group is fully
populated, and the header holds the parsed values — `reset()` runs at
the start of the next load, not on failure. -/
theorem claim_c5_counterexample :
    (loadFile c5File).1 = .error .valueError ∧
    c5State.markers.length = 2 ∧
    getMarkerCount c5State = 3 ∧
    c5State.parameters.length = 1 ∧
    ((c5State.parameters.get? 0).map (fun g => g.parameters.length))
      = some 2 := by
  have hs : c5State = s5FinLit := by
    unfold c5State
    rw [t5Load]
  refine ⟨by rw [t5Load], ?_, ?_, ?_, ?_⟩ <;> rw [hs] <;> rfl

/-- Claim C5 (amended): when the resolved labels do not match the
header's marker count, `_readMarkers` raises a typed ValueError, but
the state it leaves behind still contains every marker appended before
the check (and all previously parsed parameters and header fields): a
caller holding the object can observe the partially populated marker
list after the failed load. -/
theorem claim_c5_amended_partial_state (s : LoadState)
    (pointGroup : ParameterGroup) (labels : Parameter) (names : List PyVal)
    (hpg : getParameterGroupByName s.parameters (cp "POINT") = some pointGroup)
    (hlab : pointGroup.getParameter (cp "LABELS") = some labels)
    (hlab2 : pointGroup.getParameter (cp "LABELS2") = Option.none)
    (hiter : pyIter labels.data = .ok names)
    (hmm : ((s.markers.length + names.length : Nat) : Int)
      ≠ s.header.markerCount) :
    readMarkers s = (.error .valueError,
      { s with markers := s.markers ++ names.map mkMarker }) := by
  unfold readMarkers
  simp only [PyM_bind_apply, PyM_pure_apply, liftE, getS, modifyS,
    hpg, hlab, hlab2, hiter]
  rw [if_pos]
  · rfl
  · simp only [List.length_append, List.length_map, getMarkerCount]
    intro hc
    exact hmm (by omega)

/-- Claim C5 witness: the amended theorem applied to the concrete
mismatching document. -/
theorem claim_c5_amended_witness :
    readMarkers c5WitState = (.error .valueError,
      { c5WitState with markers :=
        c5WitState.markers ++ [PyVal.s [65]].map mkMarker }) :=
  claim_c5_amended_partial_state c5WitState c5WitGroup c5WitLabels
    [PyVal.s [65]] (by rfl) (by rfl) (by rfl) (by rfl) (by decide)

end PyC3D
